import Mathlib

/-!
# Plugin dashboards reconciliation and data request dispatch

A shallow embedding of `pkg/plugins/manager/dashboards.go` and `pkg/tsdb/service.go`.

Go functions returning `(value, error)` are embedded as functions returning a pair whose
components may be absent (`none` stands for Go's `nil`), together with the ordered list of
the calls they made to their collaborators (the message bus, the file system, the factory
registry and the query handlers).  Go maps are embedded as lookup functions.
-/

set_option autoImplicit false

namespace Grafana

/-! ## Errors -/

/-- Go `error` values met in the two files: the plugin-not-found error value, the error
values that collaborators hand back (told apart by their text), and the error values built by
`fmt.Errorf`, kept as the format string with its arguments: `Errorf` for a format whose only
verb is a `%q` given a string, `ErrorfWrap` for a format with a `%q` given a string followed by
a `%w` given an error. -/
inductive Error where
  | PluginNotFoundError (PluginID : String)
  | external (text : String)
  | Errorf (format : String) (quoted : String)
  | ErrorfWrap (format : String) (quoted : String) (wrapped : Error)
  deriving DecidableEq, Repr

/-- The error a `fmt.Errorf` value unwraps to: the argument of its `%w` verb. -/
def Error.Unwrap : Error → Option Error
  | .ErrorfWrap _ _ wrapped => some wrapped
  | _ => none

/-! ## JSON documents -/

/-- Modelled from the spec: the `simplejson` package is not among the sources.  A parsed
document; the revision field is "integer, default 1 if absent", so numbers are integers.  An
object is its list of fields, each key held once. -/
inductive Json where
  | null
  | bool (b : Bool)
  | number (n : Int)
  | string (s : String)
  | array (items : List Json)
  | object (fields : List (String × Json))

/-- Modelled from the spec: `simplejson`'s `Get` is not among the sources.  The value under
`key` of an object; the null document when `j` is not an object or lacks the key. -/
def Json.Get (j : Json) (key : String) : Json :=
  match j with
  | .object fields =>
    match fields.lookup key with
    | some v => v
    | none => .null
  | _ => .null

/-- Modelled from the spec: `simplejson`'s `MustInt64` is not among the sources.  The integer
held by `j`, and `dflt` "when the revision field is absent or non-numeric". -/
def Json.MustInt64 (j : Json) (dflt : Int) : Int :=
  match j with
  | .number n => n
  | _ => dflt

/-! ## Data model of the plugin manager -/

/-- The fields of `models.Dashboard` that the reconciliation reads. -/
structure Dashboard where
  Id : Int
  Slug : String
  Title : String
  Data : Json

/-- Modelled from the spec: the constant `pluginmodels.PluginTypeDashboard` is not among the
sources; the spec speaks of includes of kind "dashboard". -/
def PluginTypeDashboard : String := "dashboard"

/-- An entry of a plugin's `Includes`. -/
structure PluginInclude where
  Type_ : String
  Path : String
  deriving DecidableEq, Repr

/-- The fields of a registered plugin that the two functions read. -/
structure PluginBase where
  Id : String
  PluginDir : String
  Includes : List PluginInclude
  deriving DecidableEq, Repr

structure PluginDashboardInfoDTO where
  PluginId : String := ""
  Title : String := ""
  Imported : Bool := false
  ImportedUri : String := ""
  ImportedUrl : String := ""
  Slug : String := ""
  DashboardId : Int := 0
  FolderId : Int := 0
  ImportedRevision : Int := 0
  Revision : Int := 0
  Description : String := ""
  Path : String := ""
  Removed : Bool := false
  deriving DecidableEq, Repr

/-- An open file: what reading it yields, and the error its `Close` returns, if any. -/
structure File where
  content : String
  closeErr : Option Error

/-- The calls the plugin manager makes to its collaborators, in the order made. -/
inductive Event where
  | busDispatch (OrgId : Int) (PluginId : String)
  | osOpen (path : String)
  | readerClose (path : String)
  | logWarn (msg : String) (path : String) (err : Error)
  deriving DecidableEq, Repr

/-- The plugin manager: the `Plugins` map. -/
structure PluginManager where
  Plugins : String → Option PluginBase

/-- The collaborators of the plugin manager whose code is not in the two files: the message
bus answering `GetDashboardsByPluginIdQuery` (either an error or the `Result` it stores in the
query), `os.Open`, `filepath.Join`, `simplejson.NewFromReader`, `models.NewDashboardFromJson`
and `Dashboard.GetUrl`. -/
structure World where
  busDispatch : Int → String → Except Error (List Dashboard)
  osOpen : String → Except Error File
  filepathJoin : String → String → String
  NewFromReader : String → Except Error Json
  NewDashboardFromJson : Json → Dashboard
  GetUrl : Dashboard → String

/-! ## `loadPluginDashboard` -/

/-- The deferred function of `loadPluginDashboard`: close the reader, and log a warning when
closing fails. -/
def deferredClose (dashboardFilePath : String) (reader : File) : List Event :=
  match reader.closeErr with
  | some err => [.readerClose dashboardFilePath,
                 .logWarn "Failed to close file" dashboardFilePath err]
  | none => [.readerClose dashboardFilePath]

def loadPluginDashboard (pm : PluginManager) (w : World) (pluginId path : String) :
    Except Error Dashboard × List Event :=
  match pm.Plugins pluginId with
  | none => (.error (.PluginNotFoundError pluginId), [])
  | some plugin =>
    let dashboardFilePath := w.filepathJoin plugin.PluginDir path
    match w.osOpen dashboardFilePath with
    | .error err => (.error err, [.osOpen dashboardFilePath])
    | .ok reader =>
      match w.NewFromReader reader.content with
      | .error err =>
        (.error err, .osOpen dashboardFilePath :: deferredClose dashboardFilePath reader)
      | .ok data =>
        (.ok (w.NewDashboardFromJson data),
          .osOpen dashboardFilePath :: deferredClose dashboardFilePath reader)

/-- Modelled from the spec: the package-level `LoadPluginDashboard` that `GetPluginDashboards`
calls is not among the sources.  The spec has the reconciler "load and parse the dashboard file
at `pluginDirectory/include.path`" through the dashboard loader, which is
`loadPluginDashboard`. -/
def LoadPluginDashboard (pm : PluginManager) (w : World) (pluginId path : String) :
    Except Error Dashboard × List Event :=
  loadPluginDashboard pm w pluginId path

/-! ## `GetPluginDashboards` -/

/-- The loop "find existing dashboard": every stored dashboard with the slug of `dashboard`
overwrites the import fields of `res` and enters its id in `existingMatches`. -/
def findExisting (w : World) (dashboard : Dashboard) :
    List Dashboard → PluginDashboardInfoDTO → List Int → PluginDashboardInfoDTO × List Int
  | [], res, existingMatches => (res, existingMatches)
  | existingDash :: rest, res, existingMatches =>
    if existingDash.Slug = dashboard.Slug then
      findExisting w dashboard rest
        { res with
          DashboardId := existingDash.Id
          Imported := true
          ImportedUri := "db/" ++ existingDash.Slug
          ImportedUrl := w.GetUrl existingDash
          ImportedRevision := (existingDash.Data.Get "revision").MustInt64 1 }
        (existingDash.Id :: existingMatches)
    else
      findExisting w dashboard rest res existingMatches

/-- The loop over `plugin.Includes`.  `result`, `existingMatches` and `trace` are the rows,
the matched ids and the collaborator calls accumulated so far. -/
def includesLoop (pm : PluginManager) (w : World) (plugin : PluginBase)
    (queryResult : List Dashboard) :
    List PluginInclude → List PluginDashboardInfoDTO → List Int → List Event →
      Except Error (List PluginDashboardInfoDTO × List Int) × List Event
  | [], result, existingMatches, trace => (.ok (result, existingMatches), trace)
  | incl :: rest, result, existingMatches, trace =>
    if incl.Type_ ≠ PluginTypeDashboard then
      includesLoop pm w plugin queryResult rest result existingMatches trace
    else
      match LoadPluginDashboard pm w plugin.Id incl.Path with
      | (.error err, t) => (.error err, trace ++ t)
      | (.ok dashboard, t) =>
        let res : PluginDashboardInfoDTO :=
          { Path := incl.Path
            PluginId := plugin.Id
            Title := dashboard.Title
            Revision := (dashboard.Data.Get "revision").MustInt64 1 }
        let found := findExisting w dashboard queryResult res existingMatches
        includesLoop pm w plugin queryResult rest (result ++ [found.1]) found.2 (trace ++ t)

/-- The loop "find deleted dashboards". -/
def findDeleted (existingMatches : List Int) :
    List Dashboard → List PluginDashboardInfoDTO → List PluginDashboardInfoDTO
  | [], result => result
  | dash :: rest, result =>
    if dash.Id ∉ existingMatches then
      findDeleted existingMatches rest
        (result ++ [{ Slug := dash.Slug, DashboardId := dash.Id, Removed := true }])
    else
      findDeleted existingMatches rest result

def GetPluginDashboards (pm : PluginManager) (w : World) (orgId : Int) (pluginId : String) :
    (Option (List PluginDashboardInfoDTO) × Option Error) × List Event :=
  match pm.Plugins pluginId with
  | none => ((none, some (.PluginNotFoundError pluginId)), [])
  | some plugin =>
    match w.busDispatch orgId pluginId with
    | .error err => ((none, some err), [.busDispatch orgId pluginId])
    | .ok queryResult =>
      match includesLoop pm w plugin queryResult plugin.Includes [] []
          [.busDispatch orgId pluginId] with
      | (.error err, trace) => ((none, some err), trace)
      | (.ok (result, existingMatches), trace) =>
        ((some (findDeleted existingMatches queryResult result), none), trace)

/-! ## Data model of the data service -/

/-- The fields of `models.DataSource` that the dispatch reads, with the id that tells data
sources of one type apart. -/
structure DataSource where
  Id : Int
  Type_ : String
  deriving DecidableEq, Repr

/-- The `context.Context` handed through to the handler, named by a label. -/
structure Context where
  label : String
  deriving DecidableEq, Repr

/-- The query handed through to the handler; the dispatch does not look inside it. -/
structure DataQuery where
  body : String
  deriving DecidableEq, Repr

/-- The response of a handler; `pluginmodels.DataResponse{}` has no results. -/
structure DataResponse where
  Results : List (String × String) := []
  deriving DecidableEq, Repr

/-- The interface `pluginmodels.DataPlugin`: a handler, named so that calls to it can be told
apart, with its `DataQuery` method. -/
structure DataPlugin where
  name : String
  DataQuery : Context → DataSource → DataQuery → DataResponse × Option Error

/-- The calls `HandleRequest` makes, in the order made. -/
inductive CallEvent where
  | GetDataPlugin (typ : String)
  | registryLookup (typ : String)
  | factory (typ : String) (ds : DataSource)
  | DataQuery (handler : String) (ctx : Context) (ds : DataSource) (query : DataQuery)
  deriving DecidableEq, Repr

/-- The data service: the live handlers its plugin manager answers `GetDataPlugin` with
(`none` for Go's `nil`), and the `registry` map of factories. -/
structure Service where
  GetDataPlugin : String → Option DataPlugin
  registry : String → Option (DataSource → Except Error DataPlugin)

/-- `NewService`: a service with an empty registry. -/
def NewService (GetDataPlugin : String → Option DataPlugin) : Service :=
  { GetDataPlugin := GetDataPlugin, registry := fun _ => none }

def HandleRequest (s : Service) (ctx : Context) (ds : DataSource) (query : DataQuery) :
    (DataResponse × Option Error) × List CallEvent :=
  match s.GetDataPlugin ds.Type_ with
  | none =>
    match s.registry ds.Type_ with
    | none =>
      (({}, some (.Errorf "could not find plugin corresponding to data source type: %q"
          ds.Type_)),
        [.GetDataPlugin ds.Type_, .registryLookup ds.Type_])
    | some factory =>
      match factory ds with
      | .error err =>
        (({}, some (.ErrorfWrap "could not instantiate endpoint for data plugin %q: %w"
            ds.Type_ err)),
          [.GetDataPlugin ds.Type_, .registryLookup ds.Type_, .factory ds.Type_ ds])
      | .ok endpoint =>
        (endpoint.DataQuery ctx ds query,
          [.GetDataPlugin ds.Type_, .registryLookup ds.Type_, .factory ds.Type_ ds,
            .DataQuery endpoint.name ctx ds query])
  | some plugin =>
    (plugin.DataQuery ctx ds query,
      [.GetDataPlugin ds.Type_, .DataQuery plugin.name ctx ds query])

def RegisterQueryHandler (s : Service) (name : String)
    (factory : DataSource → Except Error DataPlugin) : Service :=
  { s with registry := fun k => if k = name then some factory else s.registry k }

/-! ## Vocabulary for the statements about `GetPluginDashboards` -/

/-- The includes of type dashboard, in declaration order. -/
def dashboardIncludes (plugin : PluginBase) : List PluginInclude :=
  plugin.Includes.filter (fun incl => incl.Type_ = PluginTypeDashboard)

/-- The include `incl` of `plugin` loads successfully, as dashboard `d`. -/
def LoadsAs (pm : PluginManager) (w : World) (plugin : PluginBase)
    (incl : PluginInclude) (d : Dashboard) : Prop :=
  (LoadPluginDashboard pm w plugin.Id incl.Path).1 = .ok d

/-- The row of a stored dashboard reported as removed. -/
def removedRow (dash : Dashboard) : PluginDashboardInfoDTO :=
  { Slug := dash.Slug, DashboardId := dash.Id, Removed := true }

/-- The row of the include `incl` that loaded as `dashboard`: the row the loop body builds and
then hands to the scan of the stored dashboards. -/
def includeRow (w : World) (plugin : PluginBase) (queryResult : List Dashboard)
    (incl : PluginInclude) (dashboard : Dashboard) : PluginDashboardInfoDTO :=
  (findExisting w dashboard queryResult
    { Path := incl.Path
      PluginId := plugin.Id
      Title := dashboard.Title
      Revision := (dashboard.Data.Get "revision").MustInt64 1 } []).1

/-- The stored dashboard `dash` shares its id with a stored dashboard whose slug is the slug
of a declared dashboard. -/
def idMatched (declared queryResult : List Dashboard) (dash : Dashboard) : Bool :=
  decide (dash.Id ∈
    (queryResult.filter (fun t => decide (t.Slug ∈ declared.map (fun d => d.Slug)))).map
      (fun t => t.Id))

/-- The number of slugs that occur both among the declared and among the stored dashboards. -/
def commonSlugs (declared queryResult : List Dashboard) : Nat :=
  ((declared.map (fun d => d.Slug)).dedup.filter
    (fun slug => decide (slug ∈ queryResult.map (fun t => t.Slug)))).length

/-- The rows of a successful call: the rows of the dashboard includes, then the rows of the
stored dashboards whose id was not matched. -/
def reconciled (w : World) (plugin : PluginBase) (stored ds : List Dashboard) :
    List PluginDashboardInfoDTO :=
  List.zipWith (includeRow w plugin stored) (dashboardIncludes plugin) ds ++
    (stored.filter (fun s => !idMatched ds stored s)).map removedRow

/-! ## Vocabulary for the statements about `HandleRequest` -/

/-- The call is an invocation of a factory of the registry. -/
def CallEvent.isFactory : CallEvent → Bool
  | .factory _ _ => true
  | _ => false

/-- The call is an invocation of the `DataQuery` method of a handler. -/
def CallEvent.isDataQuery : CallEvent → Bool
  | .DataQuery _ _ _ _ => true
  | _ => false

/-- The calls made by a run of `HandleRequest` calls for one data source on one service.
`HandleRequest` assigns to no field of its receiver, so every call of the run meets the service
as the first one met it. -/
def callsOfRun (s : Service) (ds : DataSource) : List (Context × DataQuery) → List CallEvent
  | [] => []
  | (ctx, query) :: rest => (HandleRequest s ctx ds query).2 ++ callsOfRun s ds rest

/-- The service after registering the factories `fs` for `name`, one after the other. -/
def registerAll (s : Service) (name : String) :
    List (DataSource → Except Error DataPlugin) → Service
  | [] => s
  | f :: rest => registerAll (RegisterQueryHandler s name f) name rest

/-! ## Concrete plugins, stores and files -/

namespace Example

/-- The document with title "A" and slug "new", without a revision. -/
def docNew : Json := .object [("title", .string "A"), ("slug", .string "new")]

/-- The document with title "B", slug "old" and revision 3. -/
def docOld3 : Json :=
  .object [("title", .string "B"), ("slug", .string "old"), ("revision", .number 3)]

/-- The document with title "C" and slug "old", without a revision. -/
def docOldBare : Json := .object [("title", .string "C"), ("slug", .string "old")]

/-- A document parser for the examples: the content of a file names its document. -/
def parse (content : String) : Except Error Json :=
  if content = "new" then .ok docNew
  else if content = "old3" then .ok docOld3
  else if content = "old" then .ok docOldBare
  else .error (.external "invalid character")

/-- The text held by a document, empty when it is not a string. -/
def text : Json → String
  | .string s => s
  | _ => ""

/-- A dashboard of a parsed document for the examples, with title and slug read from it. -/
def fromJson (data : Json) : Dashboard :=
  { Id := 0, Slug := text (data.Get "slug"), Title := text (data.Get "title"), Data := data }

/-- A stored dashboard with the given id, slug and revision. -/
def storedDash (id : Int) (slug : String) (revision : Int) : Dashboard :=
  { Id := id, Slug := slug, Title := slug, Data := .object [("revision", .number revision)] }

/-- A stored dashboard whose data has no revision field. -/
def storedBare (id : Int) (slug : String) : Dashboard :=
  { Id := id, Slug := slug, Title := slug, Data := .object [] }

/-- The plugin "acme" declaring the dashboard `dash1.json`. -/
def acme : PluginBase :=
  { Id := "acme", PluginDir := "plugins/acme",
    Includes := [{ Type_ := "dashboard", Path := "dash1.json" }] }

/-- A registry that knows the plugin "acme" only. -/
def pm : PluginManager :=
  { Plugins := fun id => if id = "acme" then some acme else none }

/-- A world whose store answers with `stored` and whose file `plugins/acme/dash1.json` has
content `content`; no other file can be opened. -/
def world (stored : Except Error (List Dashboard)) (content : String) : World :=
  { busDispatch := fun _ _ => stored
    osOpen := fun path =>
      if path = "plugins/acme/dash1.json" then .ok { content := content, closeErr := none }
      else .error (.external "no such file")
    filepathJoin := fun dir path => dir ++ "/" ++ path
    NewFromReader := parse
    NewDashboardFromJson := fromJson
    GetUrl := fun d => "/d/" ++ d.Slug }

/-- The plugin "acme2" declaring the dashboard `dash1.json`, a page, and the dashboard
`dash2.json`. -/
def acme2 : PluginBase :=
  { Id := "acme2", PluginDir := "plugins/acme",
    Includes := [{ Type_ := "dashboard", Path := "dash1.json" },
                 { Type_ := "page", Path := "readme.md" },
                 { Type_ := "dashboard", Path := "dash2.json" }] }

/-- A registry that knows the plugin "acme2" only. -/
def pm2 : PluginManager :=
  { Plugins := fun id => if id = "acme2" then some acme2 else none }

/-- A live handler answering every query with one result and no error. -/
def liveHandler : DataPlugin :=
  { name := "live", DataQuery := fun _ _ query => ({ Results := [("A", query.body)] }, none) }

/-- A factory that always fails. -/
def failingFactory : DataSource → Except Error DataPlugin :=
  fun _ => .error (.external "bad credentials")

/-- A service with a live handler for "prometheus" only, and a failing factory registered for
"prometheus" only. -/
def service : Service :=
  { GetDataPlugin := fun typ => if typ = "prometheus" then some liveHandler else none
    registry := fun typ => if typ = "prometheus" then some failingFactory else none }

/-- A handler, as built by a factory, answering with the type of the data source. -/
def builtHandler : DataPlugin :=
  { name := "built"
    DataQuery := fun _ ds query => ({ Results := [(ds.Type_, query.body)] }, none) }

/-- A factory that always succeeds, with `builtHandler`. -/
def okFactory : DataSource → Except Error DataPlugin :=
  fun _ => .ok builtHandler

/-- A service without live handlers, with the failing factory registered for "mysql" and the
succeeding factory registered for "graphite". -/
def serviceOfFactories : Service :=
  { GetDataPlugin := fun _ => none
    registry := fun typ =>
      if typ = "mysql" then some failingFactory
      else if typ = "graphite" then some okFactory
      else none }

/-- The world `world stored content`, except that closing the file fails. -/
def worldCloseFails (stored : Except Error (List Dashboard)) (content : String) : World :=
  { world stored content with
    osOpen := fun path =>
      if path = "plugins/acme/dash1.json" then
        .ok { content := content, closeErr := some (.external "close failed") }
      else .error (.external "no such file") }

/-- A store answer in which the id 7 is shared by the slugs "old" and "other", and the
dashboard (id 9, slug "gone") is returned twice. -/
def storedSharedIds : List Dashboard :=
  [storedDash 7 "old" 2, storedDash 7 "other" 2, storedDash 9 "gone" 1, storedDash 9 "gone" 1]

end Example

/-! ## The loops of `GetPluginDashboards` -/

theorem findExisting_snd_mem (w : World) (d : Dashboard) (stored : List Dashboard)
    (res : PluginDashboardInfoDTO) (em : List Int) (id : Int) :
    id ∈ (findExisting w d stored res em).2 ↔
      id ∈ em ∨ ∃ s ∈ stored, s.Slug = d.Slug ∧ s.Id = id := by
  induction stored generalizing res em with
  | nil => simp [findExisting]
  | cons s rest ih =>
    unfold findExisting
    split
    · rename_i h
      rw [ih]
      constructor
      · rintro (hm | ⟨t, ht, h1, h2⟩)
        · rcases List.mem_cons.1 hm with h0 | h0
          · exact Or.inr ⟨s, List.mem_cons_self _ _, h, h0.symm⟩
          · exact Or.inl h0
        · exact Or.inr ⟨t, List.mem_cons_of_mem _ ht, h1, h2⟩
      · rintro (hm | ⟨t, ht, h1, h2⟩)
        · exact Or.inl (List.mem_cons_of_mem _ hm)
        · rcases List.mem_cons.1 ht with h0 | h0
          · subst h0
            exact Or.inl (h2 ▸ List.mem_cons_self _ _)
          · exact Or.inr ⟨t, h0, h1, h2⟩
    · rename_i h
      rw [ih]
      constructor
      · rintro (hm | ⟨t, ht, h1, h2⟩)
        · exact Or.inl hm
        · exact Or.inr ⟨t, List.mem_cons_of_mem _ ht, h1, h2⟩
      · rintro (hm | ⟨t, ht, h1, h2⟩)
        · exact Or.inl hm
        · rcases List.mem_cons.1 ht with h0 | h0
          · subst h0
            exact absurd h1 h
          · exact Or.inr ⟨t, h0, h1, h2⟩

theorem findExisting_fst_indep (w : World) (d : Dashboard) (stored : List Dashboard)
    (res : PluginDashboardInfoDTO) (em em2 : List Int) :
    (findExisting w d stored res em).1 = (findExisting w d stored res em2).1 := by
  induction stored generalizing res em em2 with
  | nil => simp [findExisting]
  | cons s rest ih =>
    unfold findExisting
    split
    · exact ih _ _ _
    · exact ih _ _ _

theorem findExisting_fst_of_no_match (w : World) (d : Dashboard) (stored : List Dashboard)
    (res : PluginDashboardInfoDTO) (em : List Int)
    (h : ∀ s ∈ stored, s.Slug ≠ d.Slug) :
    (findExisting w d stored res em).1 = res := by
  induction stored generalizing res em with
  | nil => simp [findExisting]
  | cons s rest ih =>
    unfold findExisting
    rw [if_neg (h s (List.mem_cons_self _ _))]
    exact ih _ _ (fun t ht => h t (List.mem_cons_of_mem _ ht))

theorem findExisting_fst_of_last (w : World) (d : Dashboard) (pre post : List Dashboard)
    (s : Dashboard) (res : PluginDashboardInfoDTO) (em : List Int)
    (hs : s.Slug = d.Slug) (hpost : ∀ t ∈ post, t.Slug ≠ d.Slug) :
    (findExisting w d (pre ++ s :: post) res em).1 =
      { res with
        DashboardId := s.Id
        Imported := true
        ImportedUri := "db/" ++ s.Slug
        ImportedUrl := w.GetUrl s
        ImportedRevision := (s.Data.Get "revision").MustInt64 1 } := by
  induction pre generalizing res em with
  | nil =>
    simp only [List.nil_append]
    unfold findExisting
    rw [if_pos hs]
    exact findExisting_fst_of_no_match w d post _ _ hpost
  | cons p pre ih =>
    simp only [List.cons_append]
    unfold findExisting
    split
    · rw [ih]
    · rw [ih]

/-- The fields of a row that the scan of the stored dashboards never writes. -/
theorem findExisting_fst_kept (w : World) (d : Dashboard) (stored : List Dashboard)
    (res : PluginDashboardInfoDTO) (em : List Int) :
    (findExisting w d stored res em).1.PluginId = res.PluginId ∧
    (findExisting w d stored res em).1.Title = res.Title ∧
    (findExisting w d stored res em).1.Path = res.Path ∧
    (findExisting w d stored res em).1.Revision = res.Revision ∧
    (findExisting w d stored res em).1.FolderId = res.FolderId ∧
    (findExisting w d stored res em).1.Slug = res.Slug ∧
    (findExisting w d stored res em).1.Description = res.Description ∧
    (findExisting w d stored res em).1.Removed = res.Removed := by
  induction stored generalizing res em with
  | nil => simp [findExisting]
  | cons s rest ih =>
    unfold findExisting
    split
    · exact ih _ _
    · exact ih _ _

theorem findDeleted_eq (em : List Int) (stored : List Dashboard)
    (result : List PluginDashboardInfoDTO) :
    findDeleted em stored result =
      result ++ (stored.filter (fun s => decide (s.Id ∉ em))).map removedRow := by
  induction stored generalizing result with
  | nil => simp [findDeleted]
  | cons s rest ih =>
    unfold findDeleted
    split
    · rename_i h
      rw [ih, List.filter_cons_of_pos (by simpa using h)]
      simp [removedRow]
    · rename_i h
      rw [ih, List.filter_cons_of_neg (by simpa using h)]

theorem includesLoop_ok (pm : PluginManager) (w : World) (plugin : PluginBase)
    (stored : List Dashboard) (incs : List PluginInclude) (ds : List Dashboard)
    (result : List PluginDashboardInfoDTO) (em : List Int) (tr : List Event)
    (h : List.Forall₂ (LoadsAs pm w plugin)
      (incs.filter (fun incl => incl.Type_ = PluginTypeDashboard)) ds) :
    ∃ em2, (includesLoop pm w plugin stored incs result em tr).1 =
        .ok (result ++ List.zipWith (includeRow w plugin stored)
          (incs.filter (fun incl => incl.Type_ = PluginTypeDashboard)) ds, em2) ∧
      ∀ id, id ∈ em2 ↔ id ∈ em ∨ ∃ d ∈ ds, ∃ s ∈ stored, s.Slug = d.Slug ∧ s.Id = id := by
  induction incs generalizing ds result em tr with
  | nil =>
    simp only [List.filter_nil, List.forall₂_nil_left_iff] at h
    subst h
    exact ⟨em, by simp [includesLoop], by simp⟩
  | cons incl rest ih =>
    by_cases hty : incl.Type_ = PluginTypeDashboard
    · rw [List.filter_cons_of_pos (by simpa using hty)] at h ⊢
      rcases List.forall₂_cons_left_iff.1 h with ⟨d, ds2, hd, hrest, rfl⟩
      rcases hL : LoadPluginDashboard pm w plugin.Id incl.Path with ⟨r, t⟩
      have hr : r = .ok d := by
        have := hd
        unfold LoadsAs at this
        rw [hL] at this
        exact this
      subst hr
      rcases ih ds2 (result ++ [(findExisting w d stored
          { Path := incl.Path
            PluginId := plugin.Id
            Title := d.Title
            Revision := (d.Data.Get "revision").MustInt64 1 } em).1])
          (findExisting w d stored
          { Path := incl.Path
            PluginId := plugin.Id
            Title := d.Title
            Revision := (d.Data.Get "revision").MustInt64 1 } em).2 (tr ++ t) hrest
        with ⟨em2, h1, h2⟩
      refine ⟨em2, ?_, ?_⟩
      · unfold includesLoop
        rw [if_neg (by simpa using hty)]
        simp only [hL]
        rw [h1]
        simp only [List.zipWith_cons_cons, List.append_assoc, List.singleton_append]
        rw [includeRow, findExisting_fst_indep w d stored _ em []]
      · intro id
        rw [h2, findExisting_snd_mem]
        constructor
        · rintro ((hm | ⟨s, hs, h3, h4⟩) | ⟨d2, hd2, s, hs, h3, h4⟩)
          · exact Or.inl hm
          · exact Or.inr ⟨d, List.mem_cons_self _ _, s, hs, h3, h4⟩
          · exact Or.inr ⟨d2, List.mem_cons_of_mem _ hd2, s, hs, h3, h4⟩
        · rintro (hm | ⟨d2, hd2, s, hs, h3, h4⟩)
          · exact Or.inl (Or.inl hm)
          · rcases List.mem_cons.1 hd2 with h0 | h0
            · subst h0
              exact Or.inl (Or.inr ⟨s, hs, h3, h4⟩)
            · exact Or.inr ⟨d2, h0, s, hs, h3, h4⟩
    · rw [List.filter_cons_of_neg (by simpa using hty)] at h ⊢
      rcases ih ds result em tr h with ⟨em2, h1, h2⟩
      refine ⟨em2, ?_, h2⟩
      unfold includesLoop
      rw [if_pos (by simpa using hty)]
      exact h1

theorem includesLoop_fail (pm : PluginManager) (w : World) (plugin : PluginBase)
    (stored : List Dashboard) (pre post : List PluginInclude) (incl : PluginInclude)
    (e : Error) (dsPre : List Dashboard)
    (result : List PluginDashboardInfoDTO) (em : List Int) (tr : List Event)
    (hpre : List.Forall₂ (LoadsAs pm w plugin)
      (pre.filter (fun i => i.Type_ = PluginTypeDashboard)) dsPre)
    (hty : incl.Type_ = PluginTypeDashboard)
    (hl : (LoadPluginDashboard pm w plugin.Id incl.Path).1 = .error e) :
    (includesLoop pm w plugin stored (pre ++ incl :: post) result em tr).1 = .error e := by
  induction pre generalizing dsPre result em tr with
  | nil =>
    rcases hL : LoadPluginDashboard pm w plugin.Id incl.Path with ⟨r, t⟩
    rw [hL] at hl
    simp only at hl
    subst hl
    simp only [List.nil_append]
    unfold includesLoop
    rw [if_neg (by simpa using hty)]
    simp only [hL]
  | cons p pre ih =>
    simp only [List.cons_append]
    by_cases hp : p.Type_ = PluginTypeDashboard
    · rw [List.filter_cons_of_pos (by simpa using hp)] at hpre
      rcases List.forall₂_cons_left_iff.1 hpre with ⟨d, ds2, hd, hrest, rfl⟩
      rcases hL : LoadPluginDashboard pm w plugin.Id p.Path with ⟨r, t⟩
      have hr : r = .ok d := by
        have := hd
        unfold LoadsAs at this
        rw [hL] at this
        exact this
      subst hr
      unfold includesLoop
      rw [if_neg (by simpa using hp)]
      simp only [hL]
      exact ih ds2 _ _ _ hrest
    · rw [List.filter_cons_of_neg (by simpa using hp)] at hpre
      unfold includesLoop
      rw [if_pos (by simpa using hp)]
      exact ih dsPre _ _ _ hpre

/-- Either every dashboard include loads, or there is a first dashboard include that fails
to load. -/
theorem loads_or_first_failure (pm : PluginManager) (w : World) (plugin : PluginBase)
    (incs : List PluginInclude) :
    (∃ ds, List.Forall₂ (LoadsAs pm w plugin)
      (incs.filter (fun i => i.Type_ = PluginTypeDashboard)) ds) ∨
    ∃ pre incl post e dsPre, incs = pre ++ incl :: post ∧
      List.Forall₂ (LoadsAs pm w plugin)
        (pre.filter (fun i => i.Type_ = PluginTypeDashboard)) dsPre ∧
      incl.Type_ = PluginTypeDashboard ∧
      (LoadPluginDashboard pm w plugin.Id incl.Path).1 = .error e := by
  induction incs with
  | nil => exact Or.inl ⟨[], by simp⟩
  | cons p rest ih =>
    by_cases hp : p.Type_ = PluginTypeDashboard
    · rcases hL : (LoadPluginDashboard pm w plugin.Id p.Path).1 with e | d
      · exact Or.inr ⟨[], p, rest, e, [], rfl, by simp, hp, hL⟩
      · rcases ih with ⟨ds, hds⟩ | ⟨pre, incl, post, e, dsPre, h1, h2, h3, h4⟩
        · left
          refine ⟨d :: ds, ?_⟩
          rw [List.filter_cons_of_pos (by simpa using hp)]
          exact List.Forall₂.cons hL hds
        · right
          refine ⟨p :: pre, incl, post, e, d :: dsPre, by rw [h1]; rfl, ?_, h3, h4⟩
          rw [List.filter_cons_of_pos (by simpa using hp)]
          exact List.Forall₂.cons hL h2
    · rcases ih with ⟨ds, hds⟩ | ⟨pre, incl, post, e, dsPre, h1, h2, h3, h4⟩
      · left
        refine ⟨ds, ?_⟩
        rw [List.filter_cons_of_neg (by simpa using hp)]
        exact hds
      · right
        refine ⟨p :: pre, incl, post, e, dsPre, by rw [h1]; rfl, ?_, h3, h4⟩
        rw [List.filter_cons_of_neg (by simpa using hp)]
        exact h2

/-! ## `GetPluginDashboards` as a whole -/

theorem idMatched_iff (ds stored : List Dashboard) (s : Dashboard) :
    idMatched ds stored s = true ↔
      ∃ d ∈ ds, ∃ t ∈ stored, t.Slug = d.Slug ∧ t.Id = s.Id := by
  unfold idMatched
  simp only [decide_eq_true_eq, List.mem_map, List.mem_filter]
  constructor
  · rintro ⟨t, ⟨ht, d, hd, hslug⟩, hid⟩
    exact ⟨d, hd, t, ht, hslug.symm, hid⟩
  · rintro ⟨d, hd, t, ht, hslug, hid⟩
    exact ⟨t, ⟨ht, d, hd, hslug.symm⟩, hid⟩

theorem GetPluginDashboards_ok (pm : PluginManager) (w : World) (orgId : Int)
    (pluginId : String) (plugin : PluginBase) (stored ds : List Dashboard)
    (hp : pm.Plugins pluginId = some plugin)
    (hs : w.busDispatch orgId pluginId = .ok stored)
    (hl : List.Forall₂ (LoadsAs pm w plugin) (dashboardIncludes plugin) ds) :
    (GetPluginDashboards pm w orgId pluginId).1 =
      (some (reconciled w plugin stored ds), none) := by
  rcases includesLoop_ok pm w plugin stored plugin.Includes ds [] []
    [.busDispatch orgId pluginId] hl with ⟨em2, h1, h2⟩
  unfold GetPluginDashboards
  simp only [hp, hs]
  rcases hI : includesLoop pm w plugin stored plugin.Includes [] []
    [.busDispatch orgId pluginId] with ⟨r, t⟩
  rw [hI] at h1
  simp only at h1
  subst h1
  simp only [findDeleted_eq, List.nil_append, reconciled, dashboardIncludes]
  congr 4
  apply List.filter_congr
  intro s _
  have h3 := h2 s.Id
  have h4 := idMatched_iff ds stored s
  by_cases hm : s.Id ∈ em2
  · have : idMatched ds stored s = true := h4.2 (by simpa using h3.1 hm)
    simp [hm, this]
  · have : idMatched ds stored s = false := by
      cases hb : idMatched ds stored s with
      | false => rfl
      | true => exact absurd (h3.2 (Or.inr (h4.1 hb))) hm
    simp [hm, this]

theorem GetPluginDashboards_load_error (pm : PluginManager) (w : World) (orgId : Int)
    (pluginId : String) (plugin : PluginBase) (stored : List Dashboard)
    (pre post : List PluginInclude) (incl : PluginInclude) (e : Error)
    (dsPre : List Dashboard)
    (hp : pm.Plugins pluginId = some plugin)
    (hs : w.busDispatch orgId pluginId = .ok stored)
    (hsplit : plugin.Includes = pre ++ incl :: post)
    (hpre : List.Forall₂ (LoadsAs pm w plugin)
      (pre.filter (fun i => i.Type_ = PluginTypeDashboard)) dsPre)
    (hty : incl.Type_ = PluginTypeDashboard)
    (hl : (LoadPluginDashboard pm w plugin.Id incl.Path).1 = .error e) :
    (GetPluginDashboards pm w orgId pluginId).1 = (none, some e) := by
  have h1 := includesLoop_fail pm w plugin stored pre post incl e dsPre [] []
    [.busDispatch orgId pluginId] hpre hty hl
  unfold GetPluginDashboards
  simp only [hp, hs]
  rw [hsplit]
  rcases hI : includesLoop pm w plugin stored (pre ++ incl :: post) [] []
    [.busDispatch orgId pluginId] with ⟨r, t⟩
  rw [hI] at h1
  simp only at h1
  subst h1
  rfl

/-- A call that returns rows and no error found the plugin, had the store answer, and loaded
every dashboard include; its rows are the reconciled rows. -/
theorem GetPluginDashboards_success_inv (pm : PluginManager) (w : World) (orgId : Int)
    (pluginId : String) (rows : List PluginDashboardInfoDTO)
    (h : (GetPluginDashboards pm w orgId pluginId).1 = (some rows, none)) :
    ∃ plugin stored ds, pm.Plugins pluginId = some plugin ∧
      w.busDispatch orgId pluginId = .ok stored ∧
      List.Forall₂ (LoadsAs pm w plugin) (dashboardIncludes plugin) ds ∧
      rows = reconciled w plugin stored ds := by
  cases hp : pm.Plugins pluginId with
  | none =>
    unfold GetPluginDashboards at h
    simp [hp] at h
  | some plugin =>
    cases hs : w.busDispatch orgId pluginId with
    | error err =>
      unfold GetPluginDashboards at h
      simp [hp, hs] at h
    | ok stored =>
      rcases loads_or_first_failure pm w plugin plugin.Includes with
        ⟨ds, hds⟩ | ⟨pre, incl, post, e, dsPre, h1, h2, h3, h4⟩
      · refine ⟨plugin, stored, ds, rfl, rfl, hds, ?_⟩
        rw [GetPluginDashboards_ok pm w orgId pluginId plugin stored ds hp hs hds] at h
        simpa using h.symm
      · rw [GetPluginDashboards_load_error pm w orgId pluginId plugin stored pre post incl e
          dsPre hp hs h1 h2 h3 h4] at h
        simp at h

/-! ## Properties of the reconciled rows -/

theorem includeRow_kept (w : World) (plugin : PluginBase) (stored : List Dashboard)
    (incl : PluginInclude) (d : Dashboard) :
    (includeRow w plugin stored incl d).PluginId = plugin.Id ∧
    (includeRow w plugin stored incl d).Title = d.Title ∧
    (includeRow w plugin stored incl d).Path = incl.Path ∧
    (includeRow w plugin stored incl d).Revision = (d.Data.Get "revision").MustInt64 1 ∧
    (includeRow w plugin stored incl d).FolderId = 0 ∧
    (includeRow w plugin stored incl d).Slug = "" ∧
    (includeRow w plugin stored incl d).Description = "" ∧
    (includeRow w plugin stored incl d).Removed = false :=
  findExisting_fst_kept w d stored _ []

theorem mem_zipWith_includeRow (w : World) (plugin : PluginBase) (stored : List Dashboard)
    (l : List PluginInclude) (ds : List Dashboard) (r : PluginDashboardInfoDTO)
    (h : r ∈ List.zipWith (includeRow w plugin stored) l ds) :
    ∃ incl d, incl ∈ l ∧ d ∈ ds ∧ r = includeRow w plugin stored incl d := by
  induction l generalizing ds with
  | nil => simp at h
  | cons a l ih =>
    cases ds with
    | nil => simp at h
    | cons d ds =>
      rw [List.zipWith_cons_cons] at h
      rcases List.mem_cons.1 h with h0 | h0
      · exact ⟨a, d, List.mem_cons_self _ _, List.mem_cons_self _ _, h0⟩
      · rcases ih ds h0 with ⟨incl, d2, h1, h2, h3⟩
        exact ⟨incl, d2, List.mem_cons_of_mem _ h1, List.mem_cons_of_mem _ h2, h3⟩

theorem zipWith_includeRow_not_removed (w : World) (plugin : PluginBase)
    (stored : List Dashboard) (l : List PluginInclude) (ds : List Dashboard)
    (r : PluginDashboardInfoDTO)
    (h : r ∈ List.zipWith (includeRow w plugin stored) l ds) : r.Removed = false := by
  rcases mem_zipWith_includeRow w plugin stored l ds r h with ⟨incl, d, _, _, rfl⟩
  exact (includeRow_kept w plugin stored incl d).2.2.2.2.2.2.2

theorem zipWith_includeRow_path (w : World) (plugin : PluginBase) (stored : List Dashboard)
    (R : PluginInclude → Dashboard → Prop) (l : List PluginInclude) (ds : List Dashboard)
    (h : List.Forall₂ R l ds) :
    (List.zipWith (includeRow w plugin stored) l ds).map (fun r => r.Path) =
      l.map (fun incl => incl.Path) := by
  induction h with
  | nil => rfl
  | @cons a d l ds _ _ ih =>
    simp only [List.zipWith_cons_cons, List.map_cons, ih]
    rw [(includeRow_kept w plugin stored a d).2.2.1]

theorem zipWith_includeRow_length (w : World) (plugin : PluginBase) (stored : List Dashboard)
    (R : PluginInclude → Dashboard → Prop) (l : List PluginInclude) (ds : List Dashboard)
    (h : List.Forall₂ R l ds) :
    (List.zipWith (includeRow w plugin stored) l ds).length = l.length := by
  rw [List.length_zipWith, ← h.length_eq, Nat.min_self]

theorem mem_removed_rows (ds stored : List Dashboard) (r : PluginDashboardInfoDTO)
    (h : r ∈ (stored.filter (fun s => !idMatched ds stored s)).map removedRow) :
    ∃ s ∈ stored, idMatched ds stored s = false ∧ r = removedRow s := by
  rcases List.mem_map.1 h with ⟨s, hs, rfl⟩
  rcases List.mem_filter.1 hs with ⟨h1, h2⟩
  exact ⟨s, h1, by simpa using h2, rfl⟩

/-- The rows of a successful call that are not marked removed are the rows of the dashboard
includes. -/
theorem reconciled_filter_kept (w : World) (plugin : PluginBase) (stored ds : List Dashboard) :
    (reconciled w plugin stored ds).filter (fun r => !r.Removed) =
      List.zipWith (includeRow w plugin stored) (dashboardIncludes plugin) ds := by
  unfold reconciled
  rw [List.filter_append, List.filter_eq_self.2, List.filter_eq_nil_iff.2, List.append_nil]
  · intro r hr
    rcases mem_removed_rows ds stored r hr with ⟨s, _, _, rfl⟩
    simp [removedRow]
  · intro r hr
    simp [zipWith_includeRow_not_removed w plugin stored _ ds r hr]

/-- The rows of a successful call that are marked removed are the rows of the stored
dashboards whose id was not matched. -/
theorem reconciled_filter_removed (w : World) (plugin : PluginBase)
    (stored ds : List Dashboard) :
    (reconciled w plugin stored ds).filter (fun r => r.Removed) =
      (stored.filter (fun s => !idMatched ds stored s)).map removedRow := by
  unfold reconciled
  rw [List.filter_append, List.filter_eq_nil_iff.2, List.filter_eq_self.2, List.nil_append]
  · intro r hr
    rcases mem_removed_rows ds stored r hr with ⟨s, _, _, rfl⟩
    simp [removedRow]
  · intro r hr
    simp [zipWith_includeRow_not_removed w plugin stored _ ds r hr]

theorem filter_not_length {α : Type} (p : α → Bool) (l : List α) :
    (l.filter (fun x => !p x)).length + (l.filter p).length = l.length := by
  induction l with
  | nil => rfl
  | cons a l ih =>
    cases h : p a <;> simp [List.filter_cons, h] <;> omega

/-- With pairwise distinct stored ids and pairwise distinct stored slugs, the stored
dashboards whose id was matched are as many as the slugs common to declared and stored
dashboards. -/
theorem matched_length_eq_commonSlugs (ds stored : List Dashboard)
    (hslug : (stored.map (fun t => t.Slug)).Nodup)
    (hid : (stored.map (fun t => t.Id)).Nodup) :
    (stored.filter (idMatched ds stored)).length = commonSlugs ds stored := by
  have h1 : stored.filter (idMatched ds stored) =
      stored.filter ((fun x => decide (x ∈ ds.map (fun d => d.Slug))) ∘ fun t => t.Slug) := by
    apply List.filter_congr
    intro s hs
    have h4 := idMatched_iff ds stored s
    by_cases hm : s.Slug ∈ ds.map (fun d => d.Slug)
    · rcases List.mem_map.1 hm with ⟨d, hd, hd2⟩
      have : idMatched ds stored s = true := h4.2 ⟨d, hd, s, hs, hd2.symm, rfl⟩
      rw [this]
      exact (decide_eq_true hm).symm
    · have : idMatched ds stored s = false := by
        cases hb : idMatched ds stored s with
        | false => rfl
        | true =>
          rcases h4.1 hb with ⟨d, hd, t, ht, h5, h6⟩
          have : t = s := List.inj_on_of_nodup_map hid ht hs h6
          subst this
          exact absurd (List.mem_map.2 ⟨d, hd, h5.symm⟩) hm
      rw [this]
      exact (decide_eq_false hm).symm
  rw [h1, ← List.length_map (List.filter _ stored) (fun t => t.Slug), ← List.filter_map]
  unfold commonSlugs
  apply List.Perm.length_eq
  rw [List.perm_ext_iff_of_nodup (hslug.filter _) ((List.nodup_dedup _).filter _)]
  intro a
  simp only [List.mem_filter, decide_eq_true_eq, List.mem_dedup]
  exact And.comm

/-- The rows of a call that returned rows and no error, for a known plugin and store
answer. -/
theorem success_rows (pm : PluginManager) (w : World) (orgId : Int) (pluginId : String)
    (plugin : PluginBase) (stored : List Dashboard) (rows : List PluginDashboardInfoDTO)
    (hp : pm.Plugins pluginId = some plugin)
    (hs : w.busDispatch orgId pluginId = .ok stored)
    (hr : (GetPluginDashboards pm w orgId pluginId).1 = (some rows, none)) :
    ∃ ds, List.Forall₂ (LoadsAs pm w plugin) (dashboardIncludes plugin) ds ∧
      rows = reconciled w plugin stored ds := by
  rcases GetPluginDashboards_success_inv pm w orgId pluginId rows hr with
    ⟨plugin2, stored2, ds, h1, h2, h3, h4⟩
  rw [hp] at h1
  rw [hs] at h2
  cases h1
  cases h2
  exact ⟨ds, h3, h4⟩

/-! ## Rows of single includes -/

theorem forall₂_getElem? {α β : Type} {R : α → β → Prop} {l : List α} {ds : List β}
    (h : List.Forall₂ R l ds) (i : Nat) (a : α) (hi : l[i]? = some a) :
    ∃ b, ds[i]? = some b ∧ R a b := by
  induction h generalizing i with
  | nil => simp at hi
  | @cons a0 b0 l ds hab _ ih =>
    cases i with
    | zero =>
      simp only [List.getElem?_cons_zero, Option.some.injEq] at hi
      subst hi
      exact ⟨b0, by simp, hab⟩
    | succ n =>
      simp only [List.getElem?_cons_succ] at hi ⊢
      exact ih n hi

theorem LoadsAs_unique (pm : PluginManager) (w : World) (plugin : PluginBase)
    (incl : PluginInclude) (d1 d2 : Dashboard)
    (h1 : LoadsAs pm w plugin incl d1) (h2 : LoadsAs pm w plugin incl d2) : d1 = d2 := by
  unfold LoadsAs at h1 h2
  rw [h1] at h2
  exact Except.ok.inj h2

/-- The row at the position of a dashboard include is the row of that include. -/
theorem reconciled_getElem?_include (pm : PluginManager) (w : World) (plugin : PluginBase)
    (stored ds : List Dashboard) (i : Nat) (incl : PluginInclude) (dash : Dashboard)
    (hl : List.Forall₂ (LoadsAs pm w plugin) (dashboardIncludes plugin) ds)
    (hi : (dashboardIncludes plugin)[i]? = some incl)
    (hd : LoadsAs pm w plugin incl dash) :
    (reconciled w plugin stored ds)[i]? = some (includeRow w plugin stored incl dash) ∧
      dash ∈ ds := by
  rcases forall₂_getElem? hl i incl hi with ⟨b, hb, hR⟩
  have hbd : b = dash := LoadsAs_unique pm w plugin incl b dash hR hd
  subst hbd
  have hlen : i < (List.zipWith (includeRow w plugin stored)
      (dashboardIncludes plugin) ds).length := by
    rw [zipWith_includeRow_length w plugin stored _ _ ds hl]
    rcases List.getElem?_eq_some.1 hi with ⟨h, _⟩
    exact h
  refine ⟨?_, List.mem_iff_getElem?.2 ⟨i, hb⟩⟩
  unfold reconciled
  rw [List.getElem?_append_left hlen, List.getElem?_zipWith, hi, hb]

theorem loads_of_forall (pm : PluginManager) (w : World) (plugin : PluginBase)
    (incs : List PluginInclude)
    (h : ∀ p ∈ incs, p.Type_ = PluginTypeDashboard → ∃ d, LoadsAs pm w plugin p d) :
    ∃ ds, List.Forall₂ (LoadsAs pm w plugin)
      (incs.filter (fun i => i.Type_ = PluginTypeDashboard)) ds := by
  induction incs with
  | nil => exact ⟨[], by simp⟩
  | cons p rest ih =>
    rcases ih (fun q hq => h q (List.mem_cons_of_mem _ hq)) with ⟨ds, hds⟩
    by_cases hp : p.Type_ = PluginTypeDashboard
    · rcases h p (List.mem_cons_self _ _) hp with ⟨d, hd⟩
      refine ⟨d :: ds, ?_⟩
      rw [List.filter_cons_of_pos (by simpa using hp)]
      exact List.Forall₂.cons hd hds
    · refine ⟨ds, ?_⟩
      rw [List.filter_cons_of_neg (by simpa using hp)]
      exact hds

/-! ## The claims about `GetPluginDashboards` -/

/-- C1, as stated, fails: the plugin "acme" declares one dashboard, of slug "old", and the
store returns two dashboards of slug "old" with ids 7 and 8.  Then N = 1, M = 2 and one slug
is common (K = 1), yet the call returns one row in all and no removed row, where the claim
has M - K = 1 removed row and N + M - K = 2 rows. -/
theorem row_counts_counterexample :
    Example.pm.Plugins "acme" = some Example.acme ∧
    (Example.world (.ok [Example.storedDash 7 "old" 2, Example.storedDash 8 "old" 5])
      "old3").busDispatch 1 "acme" =
      .ok [Example.storedDash 7 "old" 2, Example.storedDash 8 "old" 5] ∧
    List.Forall₂ (LoadsAs Example.pm
        (Example.world (.ok [Example.storedDash 7 "old" 2, Example.storedDash 8 "old" 5])
          "old3") Example.acme)
      (dashboardIncludes Example.acme) [Example.fromJson Example.docOld3] ∧
    (dashboardIncludes Example.acme).length = 1 ∧
    commonSlugs [Example.fromJson Example.docOld3]
      [Example.storedDash 7 "old" 2, Example.storedDash 8 "old" 5] = 1 ∧
    ∃ rows, (GetPluginDashboards Example.pm
        (Example.world (.ok [Example.storedDash 7 "old" 2, Example.storedDash 8 "old" 5])
          "old3") 1 "acme").1 = (some rows, none) ∧
      (rows.filter (fun r => r.Removed)).length = 0 ∧
      (rows.filter (fun r => r.Removed)).length ≠ 2 - 1 ∧
      rows.length = 1 ∧
      rows.length ≠ 1 + 2 - 1 :=
  ⟨rfl, rfl, List.Forall₂.cons rfl List.Forall₂.nil, by decide, by decide,
    [{ PluginId := "acme", Title := "B", Path := "dash1.json", Revision := 3,
       Imported := true, DashboardId := 8, ImportedUri := "db/old", ImportedUrl := "/d/old",
       ImportedRevision := 5 }],
    by decide, by decide, by decide, by decide, by decide⟩

/-- Distinct stored slugs alone do not give the counts of C1: when the store returns the
dashboards (id 7, slug "old") and (id 7, slug "other") and the plugin "acme" declares one
dashboard of slug "old", the shared id 7 is matched, so neither stored dashboard is reported
as removed, although only one slug is common. -/
theorem row_counts_shared_id_example :
    commonSlugs [Example.fromJson Example.docOld3]
      [Example.storedDash 7 "old" 2, Example.storedDash 7 "other" 2] = 1 ∧
    (GetPluginDashboards Example.pm
      (Example.world (.ok [Example.storedDash 7 "old" 2, Example.storedDash 7 "other" 2])
        "old3") 1 "acme").1 =
      (some [{ PluginId := "acme", Title := "B", Path := "dash1.json", Revision := 3,
               Imported := true, DashboardId := 7, ImportedUri := "db/old",
               ImportedUrl := "/d/old", ImportedRevision := 2 }], none) :=
  ⟨by decide, by decide⟩

/-- C1, amended: for a registered plugin whose dashboard includes all load (as `ds`) and a
store answer `stored` whose dashboards have pairwise distinct slugs and pairwise distinct
ids, `GetPluginDashboards` returns exactly N rows with `Removed = false` and exactly M - K
rows with `Removed = true`, N + M - K rows in all, where N counts the includes of type
dashboard, M the stored dashboards and K the slugs common to declared and stored
dashboards. -/
theorem row_counts_of_distinct_stored (pm : PluginManager) (w : World) (orgId : Int)
    (pluginId : String) (plugin : PluginBase) (stored ds : List Dashboard)
    (hp : pm.Plugins pluginId = some plugin)
    (hs : w.busDispatch orgId pluginId = .ok stored)
    (hl : List.Forall₂ (LoadsAs pm w plugin) (dashboardIncludes plugin) ds)
    (hslug : (stored.map (fun t => t.Slug)).Nodup)
    (hid : (stored.map (fun t => t.Id)).Nodup) :
    ∃ rows, (GetPluginDashboards pm w orgId pluginId).1 = (some rows, none) ∧
      (rows.filter (fun r => !r.Removed)).length = (dashboardIncludes plugin).length ∧
      (rows.filter (fun r => r.Removed)).length = stored.length - commonSlugs ds stored ∧
      rows.length =
        (dashboardIncludes plugin).length + stored.length - commonSlugs ds stored := by
  have hK := matched_length_eq_commonSlugs ds stored hslug hid
  have hsum := filter_not_length (idMatched ds stored) stored
  have hN := zipWith_includeRow_length w plugin stored _ (dashboardIncludes plugin) ds hl
  refine ⟨reconciled w plugin stored ds,
    GetPluginDashboards_ok pm w orgId pluginId plugin stored ds hp hs hl, ?_, ?_, ?_⟩
  · rw [reconciled_filter_kept, hN]
  · rw [reconciled_filter_removed, List.length_map]
    omega
  · unfold reconciled
    rw [List.length_append, List.length_map, hN]
    omega

/-- The amended C1 at the plugin "acme" with one declared dashboard of slug "new" and one
stored dashboard of slug "old": one kept row, one removed row, two rows. -/
theorem row_counts_of_distinct_stored_witness :
    ∃ rows, (GetPluginDashboards Example.pm
        (Example.world (.ok [Example.storedBare 7 "old"]) "new") 1 "acme").1
        = (some rows, none) ∧
      (rows.filter (fun r => !r.Removed)).length = (dashboardIncludes Example.acme).length ∧
      (rows.filter (fun r => r.Removed)).length =
        [Example.storedBare 7 "old"].length -
          commonSlugs [Example.fromJson Example.docNew] [Example.storedBare 7 "old"] ∧
      rows.length = (dashboardIncludes Example.acme).length +
        [Example.storedBare 7 "old"].length -
          commonSlugs [Example.fromJson Example.docNew] [Example.storedBare 7 "old"] :=
  row_counts_of_distinct_stored Example.pm
    (Example.world (.ok [Example.storedBare 7 "old"]) "new") 1 "acme" Example.acme
    [Example.storedBare 7 "old"] [Example.fromJson Example.docNew] rfl rfl
    (List.Forall₂.cons rfl List.Forall₂.nil) (by decide) (by decide)

/-- C2: the rows of a successful call are the rows of the dashboard includes, in declaration
order (the i-th row has the path of the i-th dashboard include) and none marked removed,
followed by rows all marked removed whose (slug, dashboard id) pairs are a subsequence of the
store answer in its order; hence no removed row comes before a row that is not removed. -/
theorem rows_are_includes_then_removed (pm : PluginManager) (w : World) (orgId : Int)
    (pluginId : String) (plugin : PluginBase) (stored : List Dashboard)
    (rows : List PluginDashboardInfoDTO)
    (hp : pm.Plugins pluginId = some plugin)
    (hs : w.busDispatch orgId pluginId = .ok stored)
    (hr : (GetPluginDashboards pm w orgId pluginId).1 = (some rows, none)) :
    ∃ includeRows removedRows, rows = includeRows ++ removedRows ∧
      includeRows.map (fun r => r.Path) =
        (dashboardIncludes plugin).map (fun incl => incl.Path) ∧
      (∀ r ∈ includeRows, r.Removed = false) ∧
      (∀ r ∈ removedRows, r.Removed = true) ∧
      List.Sublist (removedRows.map (fun r => (r.Slug, r.DashboardId)))
        (stored.map (fun s => (s.Slug, s.Id))) ∧
      ∀ (i j : Nat) (ri rj : PluginDashboardInfoDTO), i < j → rows[i]? = some ri → rows[j]? = some rj →
        ri.Removed = true → rj.Removed = true := by
  rcases success_rows pm w orgId pluginId plugin stored rows hp hs hr with ⟨ds, hl, rfl⟩
  have hkept : ∀ r ∈ List.zipWith (includeRow w plugin stored) (dashboardIncludes plugin) ds,
      r.Removed = false :=
    fun r hr => zipWith_includeRow_not_removed w plugin stored _ ds r hr
  have hrem : ∀ r ∈ (stored.filter (fun s => !idMatched ds stored s)).map removedRow,
      r.Removed = true := by
    intro r hr
    rcases mem_removed_rows ds stored r hr with ⟨s, _, _, rfl⟩
    rfl
  refine ⟨_, _, rfl, zipWith_includeRow_path w plugin stored _ _ ds hl, hkept, hrem, ?_, ?_⟩
  · rw [List.map_map]
    exact (List.filter_sublist stored).map _
  · intro i j ri rj hij hi hj hri
    unfold reconciled at hi hj
    by_cases hlt : i < (List.zipWith (includeRow w plugin stored)
        (dashboardIncludes plugin) ds).length
    · rw [List.getElem?_append_left hlt] at hi
      have := hkept ri (List.mem_iff_getElem?.2 ⟨i, hi⟩)
      rw [this] at hri
      cases hri
    · rw [List.getElem?_append_right (by omega)] at hj
      exact hrem rj (List.mem_iff_getElem?.2 ⟨_, hj⟩)

/-- C2 at the plugin "acme" with one declared dashboard of slug "new" and one stored
dashboard of slug "old". -/
theorem rows_are_includes_then_removed_witness :
    ∃ includeRows removedRows,
      [({ PluginId := "acme", Title := "A", Path := "dash1.json", Revision := 1 } :
          PluginDashboardInfoDTO),
        { Slug := "old", DashboardId := 7, Removed := true }] =
        includeRows ++ removedRows ∧
      includeRows.map (fun r => r.Path) =
        (dashboardIncludes Example.acme).map (fun incl => incl.Path) ∧
      (∀ r ∈ includeRows, r.Removed = false) ∧
      (∀ r ∈ removedRows, r.Removed = true) ∧
      List.Sublist (removedRows.map (fun r => (r.Slug, r.DashboardId)))
        ([Example.storedBare 7 "old"].map (fun s => (s.Slug, s.Id))) ∧
      ∀ (i j : Nat) (ri rj : PluginDashboardInfoDTO), i < j →
        [({ PluginId := "acme", Title := "A", Path := "dash1.json", Revision := 1 } :
          PluginDashboardInfoDTO),
          { Slug := "old", DashboardId := 7, Removed := true }][i]? = some ri →
        [({ PluginId := "acme", Title := "A", Path := "dash1.json", Revision := 1 } :
          PluginDashboardInfoDTO),
          { Slug := "old", DashboardId := 7, Removed := true }][j]? = some rj →
        ri.Removed = true → rj.Removed = true :=
  rows_are_includes_then_removed Example.pm
    (Example.world (.ok [Example.storedBare 7 "old"]) "new") 1 "acme" Example.acme
    [Example.storedBare 7 "old"] _ rfl rfl (by decide)

/-- C3, as stated, fails: the plugin "acme" declares one dashboard, of slug "old" and
revision 3, and the store returns the dashboards (id 7, slug "old", revision 2) and
(id 8, slug "old", revision 5).  The stored dashboard of id 7 has the slug of the include,
yet the row of the include has `DashboardId = 8` and `ImportedRevision = 5`. -/
theorem include_row_of_match_counterexample :
    Example.storedDash 7 "old" 2 ∈
      [Example.storedDash 7 "old" 2, Example.storedDash 8 "old" 5] ∧
    (dashboardIncludes Example.acme)[0]? = some { Type_ := "dashboard", Path := "dash1.json" } ∧
    LoadsAs Example.pm
      (Example.world (.ok [Example.storedDash 7 "old" 2, Example.storedDash 8 "old" 5])
        "old3") Example.acme { Type_ := "dashboard", Path := "dash1.json" }
      (Example.fromJson Example.docOld3) ∧
    (Example.storedDash 7 "old" 2).Slug = (Example.fromJson Example.docOld3).Slug ∧
    ∃ row, (GetPluginDashboards Example.pm
        (Example.world (.ok [Example.storedDash 7 "old" 2, Example.storedDash 8 "old" 5])
          "old3") 1 "acme").1 = (some [row], none) ∧
      row.DashboardId = 8 ∧
      row.DashboardId ≠ (Example.storedDash 7 "old" 2).Id ∧
      row.ImportedRevision = 5 ∧
      row.ImportedRevision ≠
        ((Example.storedDash 7 "old" 2).Data.Get "revision").MustInt64 1 :=
  ⟨List.mem_cons_self _ _, rfl, rfl, rfl,
    { PluginId := "acme", Title := "B", Path := "dash1.json", Revision := 3,
      Imported := true, DashboardId := 8, ImportedUri := "db/old", ImportedUrl := "/d/old",
      ImportedRevision := 5 },
    by decide, by decide, by decide, by decide, by decide⟩

/-- C3, amended: for a dashboard include (the i-th, loading as `dash`) whose slug is the slug
of a stored dashboard, let `d` be the last stored dashboard with that slug in the order of the
store answer.  The i-th row has `Imported = true`, `DashboardId = d.Id`,
`ImportedUri = "db/" + d.Slug`, `ImportedUrl = d.GetUrl()`, `ImportedRevision` the stored
revision of `d`, `Revision` the declared revision, `FolderId = 0` and `Removed = false`; and no
stored dashboard with that slug produces a removed row. -/
theorem include_row_of_last_match (pm : PluginManager) (w : World) (orgId : Int)
    (pluginId : String) (plugin : PluginBase) (pre post : List Dashboard) (d : Dashboard)
    (rows : List PluginDashboardInfoDTO) (i : Nat) (incl : PluginInclude) (dash : Dashboard)
    (hp : pm.Plugins pluginId = some plugin)
    (hs : w.busDispatch orgId pluginId = .ok (pre ++ d :: post))
    (hr : (GetPluginDashboards pm w orgId pluginId).1 = (some rows, none))
    (hi : (dashboardIncludes plugin)[i]? = some incl)
    (hd : LoadsAs pm w plugin incl dash)
    (hslug : d.Slug = dash.Slug)
    (hlast : ∀ t ∈ post, t.Slug ≠ dash.Slug) :
    rows[i]? = some
      { PluginId := plugin.Id
        Title := dash.Title
        Path := incl.Path
        Revision := (dash.Data.Get "revision").MustInt64 1
        Imported := true
        DashboardId := d.Id
        ImportedUri := "db/" ++ d.Slug
        ImportedUrl := w.GetUrl d
        ImportedRevision := (d.Data.Get "revision").MustInt64 1
        FolderId := 0
        Removed := false } ∧
    ∀ s ∈ pre ++ d :: post, s.Slug = dash.Slug →
      ∀ r ∈ rows, r.Removed = true → r.DashboardId ≠ s.Id := by
  rcases success_rows pm w orgId pluginId plugin _ rows hp hs hr with ⟨ds, hl, rfl⟩
  rcases reconciled_getElem?_include pm w plugin (pre ++ d :: post) ds i incl dash hl hi hd
    with ⟨hrow, hmem⟩
  refine ⟨?_, ?_⟩
  · rw [hrow, includeRow, findExisting_fst_of_last w dash pre post d _ [] hslug hlast]
  · intro s hsmem hsslug r hrmem hrem hid
    unfold reconciled at hrmem
    rcases List.mem_append.1 hrmem with h0 | h0
    · rw [zipWith_includeRow_not_removed w plugin _ _ ds r h0] at hrem
      cases hrem
    · rcases mem_removed_rows ds _ r h0 with ⟨s2, _, hnot, rfl⟩
      have : idMatched ds (pre ++ d :: post) s2 = true :=
        (idMatched_iff ds _ s2).2 ⟨dash, hmem, s, hsmem, hsslug, hid.symm⟩
      rw [this] at hnot
      cases hnot

/-- The amended C3 at the plugin "acme" declaring a dashboard of slug "old" and revision 3,
with the stored dashboard (id 7, slug "old", revision 2): the single row is imported, with
dashboard id 7, revision 3 and imported revision 2, and there is no removed row. -/
theorem include_row_of_last_match_witness :
    (GetPluginDashboards Example.pm
      (Example.world (.ok [Example.storedDash 7 "old" 2]) "old3") 1 "acme").1 =
      (some [{ PluginId := "acme", Title := "B", Path := "dash1.json", Revision := 3,
               Imported := true, DashboardId := 7, ImportedUri := "db/old",
               ImportedUrl := "/d/old", ImportedRevision := 2 }], none) ∧
    ([{ PluginId := "acme", Title := "B", Path := "dash1.json", Revision := 3,
        Imported := true, DashboardId := 7, ImportedUri := "db/old",
        ImportedUrl := "/d/old", ImportedRevision := 2 }] :
        List PluginDashboardInfoDTO)[0]? = some
      { PluginId := "acme"
        Title := "B"
        Path := "dash1.json"
        Revision := 3
        Imported := true
        DashboardId := 7
        ImportedUri := "db/old"
        ImportedUrl := "/d/old"
        ImportedRevision := 2
        FolderId := 0
        Removed := false } ∧
    ∀ s ∈ [] ++ Example.storedDash 7 "old" 2 :: [],
      s.Slug = (Example.fromJson Example.docOld3).Slug →
      ∀ r ∈ ([{ PluginId := "acme", Title := "B", Path := "dash1.json", Revision := 3,
                Imported := true, DashboardId := 7, ImportedUri := "db/old",
                ImportedUrl := "/d/old", ImportedRevision := 2 }] :
                List PluginDashboardInfoDTO),
        r.Removed = true → r.DashboardId ≠ s.Id :=
  ⟨by decide,
    include_row_of_last_match Example.pm
      (Example.world (.ok [Example.storedDash 7 "old" 2]) "old3") 1 "acme" Example.acme
      [] [] (Example.storedDash 7 "old" 2) _ 0 { Type_ := "dashboard", Path := "dash1.json" }
      (Example.fromJson Example.docOld3) rfl rfl (by decide) rfl rfl rfl
      (fun t ht => absurd ht (List.not_mem_nil t))⟩

/-- C4: for a dashboard include (the i-th, loading as `dash`) whose slug is the slug of no
stored dashboard, the i-th row has the plugin id, the parsed title, the path of the include and
the declared revision, `Imported = false`, `Removed = false`, and `DashboardId`, `ImportedUri`,
`ImportedUrl` and `ImportedRevision` at their zero values; the rows not marked removed are as
many as the dashboard includes, so the include has exactly one row. -/
theorem include_row_of_no_match (pm : PluginManager) (w : World) (orgId : Int)
    (pluginId : String) (plugin : PluginBase) (stored : List Dashboard)
    (rows : List PluginDashboardInfoDTO) (i : Nat) (incl : PluginInclude) (dash : Dashboard)
    (hp : pm.Plugins pluginId = some plugin)
    (hs : w.busDispatch orgId pluginId = .ok stored)
    (hr : (GetPluginDashboards pm w orgId pluginId).1 = (some rows, none))
    (hi : (dashboardIncludes plugin)[i]? = some incl)
    (hd : LoadsAs pm w plugin incl dash)
    (hno : ∀ s ∈ stored, s.Slug ≠ dash.Slug) :
    rows[i]? = some
      { PluginId := plugin.Id
        Title := dash.Title
        Path := incl.Path
        Revision := (dash.Data.Get "revision").MustInt64 1
        Imported := false
        Removed := false
        DashboardId := 0
        ImportedUri := ""
        ImportedUrl := ""
        ImportedRevision := 0 } ∧
    (rows.filter (fun r => !r.Removed)).length = (dashboardIncludes plugin).length := by
  rcases success_rows pm w orgId pluginId plugin stored rows hp hs hr with ⟨ds, hl, rfl⟩
  rcases reconciled_getElem?_include pm w plugin stored ds i incl dash hl hi hd
    with ⟨hrow, _⟩
  refine ⟨?_, ?_⟩
  · rw [hrow, includeRow, findExisting_fst_of_no_match w dash stored _ [] hno]
  · rw [reconciled_filter_kept, zipWith_includeRow_length w plugin stored _ _ ds hl]

/-- C4 at the plugin "acme" whose include `dash1.json` parses to title "A" and slug "new",
with the stored dashboard (id 7, slug "old"): the rows are the row of the include, not
imported, and the removed row of the stored dashboard. -/
theorem include_row_of_no_match_witness :
    (GetPluginDashboards Example.pm
      (Example.world (.ok [Example.storedBare 7 "old"]) "new") 1 "acme").1 =
      (some [{ PluginId := "acme", Title := "A", Path := "dash1.json", Revision := 1,
               Imported := false },
             { Slug := "old", DashboardId := 7, Removed := true }], none) ∧
    ([{ PluginId := "acme", Title := "A", Path := "dash1.json", Revision := 1,
        Imported := false },
      { Slug := "old", DashboardId := 7, Removed := true }] :
        List PluginDashboardInfoDTO)[0]? = some
      { PluginId := "acme"
        Title := "A"
        Path := "dash1.json"
        Revision := 1
        Imported := false
        Removed := false
        DashboardId := 0
        ImportedUri := ""
        ImportedUrl := ""
        ImportedRevision := 0 } ∧
    (([{ PluginId := "acme", Title := "A", Path := "dash1.json", Revision := 1,
         Imported := false },
       { Slug := "old", DashboardId := 7, Removed := true }] :
        List PluginDashboardInfoDTO).filter (fun r => !r.Removed)).length =
      (dashboardIncludes Example.acme).length :=
  ⟨by decide,
    include_row_of_no_match Example.pm
      (Example.world (.ok [Example.storedBare 7 "old"]) "new") 1 "acme" Example.acme
      [Example.storedBare 7 "old"] _ 0 { Type_ := "dashboard", Path := "dash1.json" }
      (Example.fromJson Example.docNew) rfl rfl (by decide) rfl rfl
      (by decide)⟩

/-- C5: every row of a successful call with `Removed = true` carries the slug and the id of
a stored dashboard of the store answer and nothing else: its `PluginId`, `Title`, `Path`,
`ImportedUri`, `ImportedUrl` and `Description` are empty, its `FolderId`, `Revision` and
`ImportedRevision` are 0 and its `Imported` flag is false. -/
theorem removed_row_fields (pm : PluginManager) (w : World) (orgId : Int)
    (pluginId : String) (plugin : PluginBase) (stored : List Dashboard)
    (rows : List PluginDashboardInfoDTO) (r : PluginDashboardInfoDTO)
    (hp : pm.Plugins pluginId = some plugin)
    (hs : w.busDispatch orgId pluginId = .ok stored)
    (hr : (GetPluginDashboards pm w orgId pluginId).1 = (some rows, none))
    (hmem : r ∈ rows) (hrem : r.Removed = true) :
    (∃ s ∈ stored, r.Slug = s.Slug ∧ r.DashboardId = s.Id) ∧
    r.PluginId = "" ∧ r.Title = "" ∧ r.Path = "" ∧ r.ImportedUri = "" ∧
    r.ImportedUrl = "" ∧ r.Description = "" ∧ r.FolderId = 0 ∧ r.Revision = 0 ∧
    r.ImportedRevision = 0 ∧ r.Imported = false := by
  rcases success_rows pm w orgId pluginId plugin stored rows hp hs hr with ⟨ds, _, rfl⟩
  unfold reconciled at hmem
  rcases List.mem_append.1 hmem with h0 | h0
  · rw [zipWith_includeRow_not_removed w plugin _ _ ds r h0] at hrem
    cases hrem
  · rcases mem_removed_rows ds _ r h0 with ⟨s, hsmem, _, rfl⟩
    exact ⟨⟨s, hsmem, rfl, rfl⟩, rfl, rfl, rfl, rfl, rfl, rfl, rfl, rfl, rfl, rfl⟩

/-- C5 at the plugin "acme" with one declared dashboard of slug "new" and the stored
dashboard (id 7, slug "old"), for the removed row of the result. -/
theorem removed_row_fields_witness :
    (∃ s ∈ [Example.storedBare 7 "old"],
      ({ Slug := "old", DashboardId := 7, Removed := true } : PluginDashboardInfoDTO).Slug
        = s.Slug ∧
      ({ Slug := "old", DashboardId := 7, Removed := true } : PluginDashboardInfoDTO).DashboardId
        = s.Id) ∧
    ({ Slug := "old", DashboardId := 7, Removed := true } : PluginDashboardInfoDTO).PluginId
      = "" ∧
    ({ Slug := "old", DashboardId := 7, Removed := true } : PluginDashboardInfoDTO).Title
      = "" ∧
    ({ Slug := "old", DashboardId := 7, Removed := true } : PluginDashboardInfoDTO).Path
      = "" ∧
    ({ Slug := "old", DashboardId := 7, Removed := true } : PluginDashboardInfoDTO).ImportedUri
      = "" ∧
    ({ Slug := "old", DashboardId := 7, Removed := true } : PluginDashboardInfoDTO).ImportedUrl
      = "" ∧
    ({ Slug := "old", DashboardId := 7, Removed := true } : PluginDashboardInfoDTO).Description
      = "" ∧
    ({ Slug := "old", DashboardId := 7, Removed := true } : PluginDashboardInfoDTO).FolderId
      = 0 ∧
    ({ Slug := "old", DashboardId := 7, Removed := true } : PluginDashboardInfoDTO).Revision
      = 0 ∧
    ({ Slug := "old", DashboardId := 7, Removed := true } :
      PluginDashboardInfoDTO).ImportedRevision = 0 ∧
    ({ Slug := "old", DashboardId := 7, Removed := true } : PluginDashboardInfoDTO).Imported
      = false :=
  removed_row_fields Example.pm
    (Example.world (.ok [Example.storedBare 7 "old"]) "new") 1 "acme" Example.acme
    [Example.storedBare 7 "old"]
    [{ PluginId := "acme", Title := "A", Path := "dash1.json", Revision := 1 },
     { Slug := "old", DashboardId := 7, Removed := true }]
    { Slug := "old", DashboardId := 7, Removed := true } rfl rfl (by decide) (by decide) rfl

/-- C6: for a plugin id that is not a key of the plugin registry, `GetPluginDashboards`
returns no row list and the plugin-not-found error carrying that id, whatever the store and
the files are; nothing was asked of the store and no file was opened. -/
theorem unknown_plugin_not_found (pm : PluginManager) (w : World) (orgId : Int)
    (pluginId : String) (h : pm.Plugins pluginId = none) :
    GetPluginDashboards pm w orgId pluginId =
      ((none, some (.PluginNotFoundError pluginId)), []) := by
  unfold GetPluginDashboards
  rw [h]

/-- C6 at the registry knowing "acme" only, asked for "nope", with a store that would
fail. -/
theorem unknown_plugin_not_found_witness :
    Example.pm.Plugins "nope" = none ∧
    GetPluginDashboards Example.pm
      (Example.world (.error (.external "db down")) "new") 1 "nope" =
      ((none, some (.PluginNotFoundError "nope")), []) :=
  ⟨rfl, unknown_plugin_not_found Example.pm
    (Example.world (.error (.external "db down")) "new") 1 "nope" rfl⟩

/-- C7: for a registered plugin and a store answer, when a dashboard include fails to load
and every dashboard include declared before it loads, `GetPluginDashboards` returns no row
list and the load error of that include; and when every dashboard include loads, it returns
no error and the complete list: one row per dashboard include, then one removed row per
stored dashboard whose id was not matched. -/
theorem load_failure_fails_call (pm : PluginManager) (w : World) (orgId : Int)
    (pluginId : String) (plugin : PluginBase) (stored : List Dashboard)
    (hp : pm.Plugins pluginId = some plugin)
    (hs : w.busDispatch orgId pluginId = .ok stored) :
    (∀ (pre post : List PluginInclude) (incl : PluginInclude) (e : Error),
      plugin.Includes = pre ++ incl :: post →
      incl.Type_ = PluginTypeDashboard →
      (∀ p ∈ pre, p.Type_ = PluginTypeDashboard → ∃ d, LoadsAs pm w plugin p d) →
      (LoadPluginDashboard pm w plugin.Id incl.Path).1 = .error e →
      (GetPluginDashboards pm w orgId pluginId).1 = (none, some e)) ∧
    ((∀ incl ∈ plugin.Includes, incl.Type_ = PluginTypeDashboard →
        ∃ d, LoadsAs pm w plugin incl d) →
      ∃ ds, List.Forall₂ (LoadsAs pm w plugin) (dashboardIncludes plugin) ds ∧
        (GetPluginDashboards pm w orgId pluginId).1 =
          (some (List.zipWith (includeRow w plugin stored) (dashboardIncludes plugin) ds ++
            (stored.filter (fun s => !idMatched ds stored s)).map removedRow), none)) := by
  constructor
  · intro pre post incl e hsplit hty hpre hl
    rcases loads_of_forall pm w plugin pre hpre with ⟨dsPre, hds⟩
    exact GetPluginDashboards_load_error pm w orgId pluginId plugin stored pre post incl e
      dsPre hp hs hsplit hds hty hl
  · intro hall
    rcases loads_of_forall pm w plugin plugin.Includes hall with ⟨ds, hds⟩
    exact ⟨ds, hds, GetPluginDashboards_ok pm w orgId pluginId plugin stored ds hp hs hds⟩

/-- C7 at the plugin "acme2", whose first dashboard loads and whose second dashboard, declared
after a page, cannot be opened: the call returns the open error and no rows; and at the
plugin "acme", whose only dashboard loads: the call returns its two rows and no error. -/
theorem load_failure_fails_call_witness :
    (GetPluginDashboards Example.pm2
      (Example.world (.ok [Example.storedBare 7 "old"]) "new") 1 "acme2").1 =
      (none, some (.external "no such file")) ∧
    ∃ ds, List.Forall₂ (LoadsAs Example.pm
        (Example.world (.ok [Example.storedBare 7 "old"]) "new") Example.acme)
        (dashboardIncludes Example.acme) ds ∧
      (GetPluginDashboards Example.pm
        (Example.world (.ok [Example.storedBare 7 "old"]) "new") 1 "acme").1 =
        (some (List.zipWith (includeRow (Example.world (.ok [Example.storedBare 7 "old"]) "new")
            Example.acme [Example.storedBare 7 "old"]) (dashboardIncludes Example.acme) ds ++
          ([Example.storedBare 7 "old"].filter
            (fun s => !idMatched ds [Example.storedBare 7 "old"] s)).map removedRow), none) :=
  ⟨(load_failure_fails_call Example.pm2
      (Example.world (.ok [Example.storedBare 7 "old"]) "new") 1 "acme2" Example.acme2
      [Example.storedBare 7 "old"] rfl rfl).1
      [{ Type_ := "dashboard", Path := "dash1.json" }, { Type_ := "page", Path := "readme.md" }]
      [] { Type_ := "dashboard", Path := "dash2.json" } (.external "no such file") rfl rfl
      (by
        intro p hp hty
        rcases List.mem_cons.1 hp with h0 | h0
        · subst h0
          exact ⟨Example.fromJson Example.docNew, rfl⟩
        · rcases List.mem_cons.1 h0 with h1 | h1
          · subst h1
            exact absurd hty (by decide)
          · exact absurd h1 (List.not_mem_nil p))
      rfl,
    (load_failure_fails_call Example.pm
      (Example.world (.ok [Example.storedBare 7 "old"]) "new") 1 "acme" Example.acme
      [Example.storedBare 7 "old"] rfl rfl).2
      (by
        intro p hp _
        rcases List.mem_cons.1 hp with h0 | h0
        · subst h0
          exact ⟨Example.fromJson Example.docNew, rfl⟩
        · exact absurd h0 (List.not_mem_nil p))⟩

/-- C8: for a registered plugin, when the store query for (orgId, pluginId) fails with error
`e`, `GetPluginDashboards` returns no row list and exactly `e`; the store query is the only
call made, so no dashboard file is opened. -/
theorem store_error_returned_unchanged (pm : PluginManager) (w : World) (orgId : Int)
    (pluginId : String) (plugin : PluginBase) (e : Error)
    (hp : pm.Plugins pluginId = some plugin)
    (hs : w.busDispatch orgId pluginId = .error e) :
    GetPluginDashboards pm w orgId pluginId =
      ((none, some e), [.busDispatch orgId pluginId]) ∧
    ∀ path, Event.osOpen path ∉ (GetPluginDashboards pm w orgId pluginId).2 := by
  have h : GetPluginDashboards pm w orgId pluginId =
      ((none, some e), [.busDispatch orgId pluginId]) := by
    unfold GetPluginDashboards
    simp only [hp, hs]
  refine ⟨h, ?_⟩
  intro path hmem
  rw [h] at hmem
  simp at hmem

/-- C8 at the plugin "acme" with a store failing with "db down". -/
theorem store_error_returned_unchanged_witness :
    GetPluginDashboards Example.pm
      (Example.world (.error (.external "db down")) "new") 1 "acme" =
      ((none, some (.external "db down")), [.busDispatch 1 "acme"]) ∧
    ∀ path, Event.osOpen path ∉ (GetPluginDashboards Example.pm
      (Example.world (.error (.external "db down")) "new") 1 "acme").2 :=
  store_error_returned_unchanged Example.pm
    (Example.world (.error (.external "db down")) "new") 1 "acme" Example.acme
    (.external "db down") rfl rfl

/-! ## The claims about `HandleRequest` -/

/-- C9: when the plugin manager returns a live handler for `ds.Type`, `HandleRequest` returns
exactly the response and error of that handler's `DataQuery(ctx, ds, query)`; the calls made
are the handler lookup and that `DataQuery`, so no factory is looked up or invoked, and the
outcome is the same whatever the registry holds. -/
theorem live_handler_takes_precedence (s : Service) (ctx : Context) (ds : DataSource)
    (query : DataQuery) (plugin : DataPlugin)
    (hlive : s.GetDataPlugin ds.Type_ = some plugin) :
    (HandleRequest s ctx ds query).1 = plugin.DataQuery ctx ds query ∧
    (HandleRequest s ctx ds query).2 =
      [.GetDataPlugin ds.Type_, .DataQuery plugin.name ctx ds query] ∧
    ∀ registry : String → Option (DataSource → Except Error DataPlugin),
      HandleRequest { s with registry := registry } ctx ds query =
        HandleRequest s ctx ds query := by
  refine ⟨?_, ?_, ?_⟩
  · unfold HandleRequest
    rw [hlive]
  · unfold HandleRequest
    rw [hlive]
  · intro registry
    unfold HandleRequest
    simp only [hlive]

/-- C9 at a service with a live handler for "prometheus" and a registered factory for
"prometheus" that would fail. -/
theorem live_handler_takes_precedence_witness :
    (HandleRequest Example.service { label := "ctx" } { Id := 1, Type_ := "prometheus" }
      { body := "up" }).1 =
      Example.liveHandler.DataQuery { label := "ctx" } { Id := 1, Type_ := "prometheus" }
        { body := "up" } ∧
    (HandleRequest Example.service { label := "ctx" } { Id := 1, Type_ := "prometheus" }
      { body := "up" }).2 =
      [.GetDataPlugin "prometheus",
        .DataQuery Example.liveHandler.name { label := "ctx" }
          { Id := 1, Type_ := "prometheus" } { body := "up" }] ∧
    ∀ registry : String → Option (DataSource → Except Error DataPlugin),
      HandleRequest { Example.service with registry := registry } { label := "ctx" }
        { Id := 1, Type_ := "prometheus" } { body := "up" } =
      HandleRequest Example.service { label := "ctx" } { Id := 1, Type_ := "prometheus" }
        { body := "up" } :=
  live_handler_takes_precedence Example.service { label := "ctx" }
    { Id := 1, Type_ := "prometheus" } { body := "up" } Example.liveHandler rfl

/-- C10: for a data source whose type has no live handler and no entry in the factory
registry, `HandleRequest` returns the empty response and the could-not-find-plugin error
naming `ds.Type`; the calls made are the two lookups, so no factory and no handler is
invoked. -/
theorem unknown_data_source_type (s : Service) (ctx : Context) (ds : DataSource)
    (query : DataQuery)
    (hlive : s.GetDataPlugin ds.Type_ = none)
    (hreg : s.registry ds.Type_ = none) :
    HandleRequest s ctx ds query =
      (({ Results := [] },
        some (.Errorf "could not find plugin corresponding to data source type: %q"
          ds.Type_)),
        [.GetDataPlugin ds.Type_, .registryLookup ds.Type_]) := by
  unfold HandleRequest
  simp only [hlive, hreg]

/-- C10 at a service that knows "prometheus" only, asked for a data source of type
"graphite". -/
theorem unknown_data_source_type_witness :
    Example.service.GetDataPlugin "graphite" = none ∧
    HandleRequest Example.service { label := "ctx" } { Id := 2, Type_ := "graphite" }
      { body := "up" } =
      (({ Results := [] },
        some (.Errorf "could not find plugin corresponding to data source type: %q"
          "graphite")),
        [.GetDataPlugin "graphite", .registryLookup "graphite"]) :=
  ⟨rfl, unknown_data_source_type Example.service { label := "ctx" }
    { Id := 2, Type_ := "graphite" } { body := "up" } rfl rfl⟩

/-- C11: for a data source with no live handler whose registered factory fails with error
`e`, `HandleRequest` returns the empty response and the could-not-instantiate error, which
names `ds.Type` and wraps `e`; the calls made are the two lookups and the factory, so no
`DataQuery` of any handler is invoked. -/
theorem factory_failure_is_wrapped (s : Service) (ctx : Context) (ds : DataSource)
    (query : DataQuery) (factory : DataSource → Except Error DataPlugin) (e : Error)
    (hlive : s.GetDataPlugin ds.Type_ = none)
    (hreg : s.registry ds.Type_ = some factory)
    (hfail : factory ds = .error e) :
    HandleRequest s ctx ds query =
      (({ Results := [] },
        some (.ErrorfWrap "could not instantiate endpoint for data plugin %q: %w"
          ds.Type_ e)),
        [.GetDataPlugin ds.Type_, .registryLookup ds.Type_, .factory ds.Type_ ds]) ∧
    (∃ err, (HandleRequest s ctx ds query).1.2 = some err ∧ err.Unwrap = some e) ∧
    ∀ ev ∈ (HandleRequest s ctx ds query).2, ev.isDataQuery = false := by
  have h : HandleRequest s ctx ds query =
      (({ Results := [] },
        some (.ErrorfWrap "could not instantiate endpoint for data plugin %q: %w"
          ds.Type_ e)),
        [.GetDataPlugin ds.Type_, .registryLookup ds.Type_, .factory ds.Type_ ds]) := by
    unfold HandleRequest
    simp only [hlive, hreg, hfail]
  refine ⟨h, ⟨.ErrorfWrap "could not instantiate endpoint for data plugin %q: %w"
    ds.Type_ e, by rw [h], rfl⟩, ?_⟩
  intro ev hev
  rw [h] at hev
  simp only [List.mem_cons, List.mem_singleton, List.not_mem_nil, or_false] at hev
  rcases hev with h0 | h0 | h0 <;> subst h0 <;> rfl

/-- C11 at a service without live handlers whose factory for "mysql" fails with
"bad credentials". -/
theorem factory_failure_is_wrapped_witness :
    HandleRequest Example.serviceOfFactories { label := "ctx" } { Id := 3, Type_ := "mysql" }
      { body := "select 1" } =
      (({ Results := [] },
        some (.ErrorfWrap "could not instantiate endpoint for data plugin %q: %w"
          "mysql" (.external "bad credentials"))),
        [.GetDataPlugin "mysql", .registryLookup "mysql",
          .factory "mysql" { Id := 3, Type_ := "mysql" }]) ∧
    (∃ err, (HandleRequest Example.serviceOfFactories { label := "ctx" }
        { Id := 3, Type_ := "mysql" } { body := "select 1" }).1.2 = some err ∧
      err.Unwrap = some (.external "bad credentials")) ∧
    ∀ ev ∈ (HandleRequest Example.serviceOfFactories { label := "ctx" }
        { Id := 3, Type_ := "mysql" } { body := "select 1" }).2, ev.isDataQuery = false :=
  factory_failure_is_wrapped Example.serviceOfFactories { label := "ctx" }
    { Id := 3, Type_ := "mysql" } { body := "select 1" } Example.failingFactory
    (.external "bad credentials") rfl rfl rfl

theorem callsOfRun_factory_count (s : Service) (ds : DataSource)
    (run : List (Context × DataQuery))
    (h : ∀ ctx query, ((HandleRequest s ctx ds query).2.filter CallEvent.isFactory).length = 1) :
    ((callsOfRun s ds run).filter CallEvent.isFactory).length = run.length := by
  induction run with
  | nil => rfl
  | cons r rest ih =>
    rcases r with ⟨ctx, query⟩
    unfold callsOfRun
    rw [List.filter_append, List.length_append, h ctx query, ih, List.length_cons]
    omega

/-- C12: for a data source with no live handler whose registered factory succeeds with
handler `endpoint`, `HandleRequest` returns exactly the response and error of
`endpoint.DataQuery(ctx, ds, query)`; the calls made are the two lookups, one invocation of
the factory with `ds`, and that `DataQuery`.  The call leaves the service as it was and keeps
no instance: in a run of calls for `ds` on the service, the factory is invoked once per
call. -/
theorem factory_path_builds_on_every_call (s : Service) (ctx : Context) (ds : DataSource)
    (query : DataQuery) (factory : DataSource → Except Error DataPlugin)
    (endpoint : DataPlugin)
    (hlive : s.GetDataPlugin ds.Type_ = none)
    (hreg : s.registry ds.Type_ = some factory)
    (hok : factory ds = .ok endpoint) :
    HandleRequest s ctx ds query =
      (endpoint.DataQuery ctx ds query,
        [.GetDataPlugin ds.Type_, .registryLookup ds.Type_, .factory ds.Type_ ds,
          .DataQuery endpoint.name ctx ds query]) ∧
    ((HandleRequest s ctx ds query).2.filter CallEvent.isFactory) = [.factory ds.Type_ ds] ∧
    ∀ run : List (Context × DataQuery),
      ((callsOfRun s ds run).filter CallEvent.isFactory).length = run.length := by
  have h : ∀ ctx2 query2, HandleRequest s ctx2 ds query2 =
      (endpoint.DataQuery ctx2 ds query2,
        [.GetDataPlugin ds.Type_, .registryLookup ds.Type_, .factory ds.Type_ ds,
          .DataQuery endpoint.name ctx2 ds query2]) := by
    intro ctx2 query2
    unfold HandleRequest
    simp only [hlive, hreg, hok]
  refine ⟨h ctx query, by rw [h]; rfl, ?_⟩
  intro run
  apply callsOfRun_factory_count
  intro ctx2 query2
  rw [h]
  rfl

/-- C12 at a service without live handlers whose factory for "graphite" succeeds, with a run
of two calls. -/
theorem factory_path_builds_on_every_call_witness :
    HandleRequest Example.serviceOfFactories { label := "ctx" }
      { Id := 4, Type_ := "graphite" } { body := "up" } =
      (Example.builtHandler.DataQuery { label := "ctx" } { Id := 4, Type_ := "graphite" }
          { body := "up" },
        [.GetDataPlugin "graphite", .registryLookup "graphite",
          .factory "graphite" { Id := 4, Type_ := "graphite" },
          .DataQuery Example.builtHandler.name { label := "ctx" }
            { Id := 4, Type_ := "graphite" } { body := "up" }]) ∧
    ((callsOfRun Example.serviceOfFactories { Id := 4, Type_ := "graphite" }
      [({ label := "first" }, { body := "up" }),
       ({ label := "second" }, { body := "up" })]).filter CallEvent.isFactory).length = 2 :=
  ⟨(factory_path_builds_on_every_call Example.serviceOfFactories { label := "ctx" }
      { Id := 4, Type_ := "graphite" } { body := "up" } Example.okFactory
      Example.builtHandler rfl rfl rfl).1,
    (factory_path_builds_on_every_call Example.serviceOfFactories { label := "ctx" }
      { Id := 4, Type_ := "graphite" } { body := "up" } Example.okFactory
      Example.builtHandler rfl rfl rfl).2.2
      [({ label := "first" }, { body := "up" }), ({ label := "second" }, { body := "up" })]⟩

theorem registerAll_append_last (s : Service) (name : String)
    (fs : List (DataSource → Except Error DataPlugin))
    (f : DataSource → Except Error DataPlugin) :
    (registerAll s name (fs ++ [f])).registry name = some f := by
  induction fs generalizing s with
  | nil => simp [registerAll, RegisterQueryHandler]
  | cons g rest ih =>
    simp only [List.cons_append, registerAll]
    exact ih _

/-- C15: `RegisterQueryHandler(name, f)` overwrites unconditionally: afterwards the factory
looked up for `name` is `f`, whatever was registered before, the factory looked up for every
other type is unchanged, and so are the live handlers; after a sequence of registrations for
`name` the last one is looked up; and `HandleRequest` for a data source of type `name` without
a live handler invokes `f`. -/
theorem register_overwrites (s : Service) (name : String)
    (f : DataSource → Except Error DataPlugin) :
    (RegisterQueryHandler s name f).registry name = some f ∧
    (∀ other, other ≠ name →
      (RegisterQueryHandler s name f).registry other = s.registry other) ∧
    (RegisterQueryHandler s name f).GetDataPlugin = s.GetDataPlugin ∧
    (∀ fs : List (DataSource → Except Error DataPlugin),
      (registerAll s name (fs ++ [f])).registry name = some f) ∧
    ∀ (ctx : Context) (ds : DataSource) (query : DataQuery),
      ds.Type_ = name → s.GetDataPlugin name = none →
      HandleRequest (RegisterQueryHandler s name f) ctx ds query =
        match f ds with
        | .error err =>
          (({ Results := [] },
            some (.ErrorfWrap "could not instantiate endpoint for data plugin %q: %w"
              ds.Type_ err)),
            [.GetDataPlugin ds.Type_, .registryLookup ds.Type_, .factory ds.Type_ ds])
        | .ok endpoint =>
          (endpoint.DataQuery ctx ds query,
            [.GetDataPlugin ds.Type_, .registryLookup ds.Type_, .factory ds.Type_ ds,
              .DataQuery endpoint.name ctx ds query]) := by
  refine ⟨?_, ?_, rfl, fun fs => registerAll_append_last s name fs f, ?_⟩
  · simp [RegisterQueryHandler]
  · intro other hne
    simp [RegisterQueryHandler, hne]
  · intro ctx ds query hty hlive
    subst hty
    unfold HandleRequest
    simp only [RegisterQueryHandler, hlive, if_true]

/-- C15 at the service with the failing factory registered for "mysql": registering the
succeeding factory for "mysql" replaces it, leaves "graphite" as it was, wins over an earlier
registration in a sequence, and is what `HandleRequest` invokes. -/
theorem register_overwrites_witness :
    (RegisterQueryHandler Example.serviceOfFactories "mysql" Example.okFactory).registry
      "mysql" = some Example.okFactory ∧
    (RegisterQueryHandler Example.serviceOfFactories "mysql" Example.okFactory).registry
      "graphite" = Example.serviceOfFactories.registry "graphite" ∧
    (registerAll Example.serviceOfFactories "mysql"
      ([Example.failingFactory, Example.failingFactory] ++ [Example.okFactory])).registry
      "mysql" = some Example.okFactory ∧
    HandleRequest (RegisterQueryHandler Example.serviceOfFactories "mysql" Example.okFactory)
      { label := "ctx" } { Id := 3, Type_ := "mysql" } { body := "select 1" } =
      (({ Results := [("mysql", "select 1")] }, none),
        [.GetDataPlugin "mysql", .registryLookup "mysql",
          .factory "mysql" { Id := 3, Type_ := "mysql" },
          .DataQuery "built" { label := "ctx" } { Id := 3, Type_ := "mysql" }
            { body := "select 1" }]) :=
  ⟨(register_overwrites Example.serviceOfFactories "mysql" Example.okFactory).1,
    (register_overwrites Example.serviceOfFactories "mysql" Example.okFactory).2.1
      "graphite" (by decide),
    (register_overwrites Example.serviceOfFactories "mysql" Example.okFactory).2.2.2.1
      [Example.failingFactory, Example.failingFactory],
    (register_overwrites Example.serviceOfFactories "mysql" Example.okFactory).2.2.2.2
      { label := "ctx" } { Id := 3, Type_ := "mysql" } { body := "select 1" } rfl rfl⟩

/-! ## The claim about `loadPluginDashboard` -/

/-- C16: `loadPluginDashboard(pluginId, path)` fails with the plugin-not-found error when
`pluginId` is not registered, with the open error when opening `PluginDir` joined with `path`
fails, with the parse error when the content does not parse, and otherwise succeeds with the
parsed dashboard; in the last two cases the file is closed, and the result is the one obtained
whatever error, if any, closing the file returns. -/
theorem loadPluginDashboard_results (pm : PluginManager) (w : World)
    (pluginId path : String) :
    (pm.Plugins pluginId = none →
      loadPluginDashboard pm w pluginId path =
        (.error (.PluginNotFoundError pluginId), [])) ∧
    (∀ plugin e, pm.Plugins pluginId = some plugin →
      w.osOpen (w.filepathJoin plugin.PluginDir path) = .error e →
      (loadPluginDashboard pm w pluginId path).1 = .error e) ∧
    (∀ plugin reader e, pm.Plugins pluginId = some plugin →
      w.osOpen (w.filepathJoin plugin.PluginDir path) = .ok reader →
      w.NewFromReader reader.content = .error e →
      (loadPluginDashboard pm w pluginId path).1 = .error e ∧
      Event.readerClose (w.filepathJoin plugin.PluginDir path) ∈
        (loadPluginDashboard pm w pluginId path).2) ∧
    (∀ plugin reader data, pm.Plugins pluginId = some plugin →
      w.osOpen (w.filepathJoin plugin.PluginDir path) = .ok reader →
      w.NewFromReader reader.content = .ok data →
      (loadPluginDashboard pm w pluginId path).1 = .ok (w.NewDashboardFromJson data) ∧
      Event.readerClose (w.filepathJoin plugin.PluginDir path) ∈
        (loadPluginDashboard pm w pluginId path).2) ∧
    ∀ plugin reader (closeErr : Option Error), pm.Plugins pluginId = some plugin →
      w.osOpen (w.filepathJoin plugin.PluginDir path) = .ok reader →
      (loadPluginDashboard pm
        { w with
          osOpen := fun p =>
            if p = w.filepathJoin plugin.PluginDir path then
              .ok { content := reader.content, closeErr := closeErr }
            else w.osOpen p } pluginId path).1 =
        (loadPluginDashboard pm w pluginId path).1 := by
  refine ⟨?_, ?_, ?_, ?_, ?_⟩
  · intro h
    unfold loadPluginDashboard
    rw [h]
  · intro plugin e hp ho
    unfold loadPluginDashboard
    simp only [hp, ho]
  · intro plugin reader e hp ho hparse
    unfold loadPluginDashboard
    simp only [hp, ho, hparse, true_and]
    unfold deferredClose
    cases reader.closeErr <;> simp
  · intro plugin reader data hp ho hparse
    unfold loadPluginDashboard
    simp only [hp, ho, hparse, true_and]
    unfold deferredClose
    cases reader.closeErr <;> simp
  · intro plugin reader closeErr hp ho
    unfold loadPluginDashboard
    simp only [hp, ho, if_true]
    cases w.NewFromReader reader.content <;> rfl

/-- C16 at the registry knowing "acme": an unknown plugin, a file that cannot be opened, a
file that does not parse, a file that parses, and the same file when closing it fails. -/
theorem loadPluginDashboard_results_witness :
    loadPluginDashboard Example.pm (Example.world (.ok []) "new") "nope" "dash1.json" =
      (.error (.PluginNotFoundError "nope"), []) ∧
    (loadPluginDashboard Example.pm (Example.world (.ok []) "new") "acme" "dash9.json").1 =
      .error (.external "no such file") ∧
    (loadPluginDashboard Example.pm (Example.world (.ok []) "garbage") "acme"
      "dash1.json").1 = .error (.external "invalid character") ∧
    (loadPluginDashboard Example.pm (Example.world (.ok []) "new") "acme" "dash1.json").1 =
      .ok ((Example.world (.ok []) "new").NewDashboardFromJson Example.docNew) ∧
    (loadPluginDashboard Example.pm
      { Example.world (.ok []) "new" with
        osOpen := fun p =>
          if p = (Example.world (.ok []) "new").filepathJoin Example.acme.PluginDir
              "dash1.json" then
            .ok { content := "new", closeErr := some (.external "close failed") }
          else (Example.world (.ok []) "new").osOpen p } "acme" "dash1.json").1 =
      (loadPluginDashboard Example.pm (Example.world (.ok []) "new") "acme" "dash1.json").1 :=
  ⟨(loadPluginDashboard_results Example.pm (Example.world (.ok []) "new") "nope"
      "dash1.json").1 rfl,
    (loadPluginDashboard_results Example.pm (Example.world (.ok []) "new") "acme"
      "dash9.json").2.1 Example.acme (.external "no such file") rfl rfl,
    ((loadPluginDashboard_results Example.pm (Example.world (.ok []) "garbage") "acme"
      "dash1.json").2.2.1 Example.acme { content := "garbage", closeErr := none }
      (.external "invalid character") rfl rfl rfl).1,
    ((loadPluginDashboard_results Example.pm (Example.world (.ok []) "new") "acme"
      "dash1.json").2.2.2.1 Example.acme { content := "new", closeErr := none }
      Example.docNew rfl rfl rfl).1,
    (loadPluginDashboard_results Example.pm (Example.world (.ok []) "new") "acme"
      "dash1.json").2.2.2.2 Example.acme { content := "new", closeErr := none }
      (some (.external "close failed")) rfl rfl⟩

/-- When closing the file fails, the load still succeeds, and the failure is logged. -/
theorem loadPluginDashboard_close_failure_example :
    loadPluginDashboard Example.pm (Example.worldCloseFails (.ok []) "new") "acme"
      "dash1.json" =
      (.ok (Example.fromJson Example.docNew),
        [.osOpen "plugins/acme/dash1.json", .readerClose "plugins/acme/dash1.json",
          .logWarn "Failed to close file" "plugins/acme/dash1.json"
            (.external "close failed")]) :=
  rfl

/-! ## Revisions -/

theorem revision_of_no_field (fields : List (String × Json))
    (h : fields.lookup "revision" = none) :
    ((Json.object fields).Get "revision").MustInt64 1 = 1 := by
  simp [Json.Get, h, Json.MustInt64]

theorem revision_of_non_object (data : Json) (h : ∀ fields, data ≠ .object fields) :
    (data.Get "revision").MustInt64 1 = 1 := by
  cases data with
  | object fields => exact absurd rfl (h fields)
  | _ => rfl

theorem revision_of_non_number (fields : List (String × Json)) (v : Json)
    (h : fields.lookup "revision" = some v) (hv : ∀ n, v ≠ .number n) :
    ((Json.object fields).Get "revision").MustInt64 1 = 1 := by
  simp only [Json.Get, h]
  cases v with
  | number n => exact absurd rfl (hv n)
  | _ => rfl

theorem revision_of_number (fields : List (String × Json)) (r : Int)
    (h : fields.lookup "revision" = some (.number r)) :
    ((Json.object fields).Get "revision").MustInt64 1 = r := by
  simp [Json.Get, h, Json.MustInt64]

/-- C13: the row of a dashboard include (the i-th, loading as `dash`) has `Revision = 1` when
the document of `dash` has no revision field, whether it is an object without that field or
not an object at all, and when its revision field is not a number; it has `Revision = r` when
the revision field is the integer `r`. -/
theorem declared_revision_default (pm : PluginManager) (w : World) (orgId : Int)
    (pluginId : String) (plugin : PluginBase) (stored : List Dashboard)
    (rows : List PluginDashboardInfoDTO) (i : Nat) (incl : PluginInclude) (dash : Dashboard)
    (hp : pm.Plugins pluginId = some plugin)
    (hs : w.busDispatch orgId pluginId = .ok stored)
    (hr : (GetPluginDashboards pm w orgId pluginId).1 = (some rows, none))
    (hi : (dashboardIncludes plugin)[i]? = some incl)
    (hd : LoadsAs pm w plugin incl dash) :
    ∃ row, rows[i]? = some row ∧ row.Removed = false ∧ row.Path = incl.Path ∧
      (∀ fields, dash.Data = .object fields → fields.lookup "revision" = none →
        row.Revision = 1) ∧
      ((∀ fields, dash.Data ≠ .object fields) → row.Revision = 1) ∧
      (∀ fields v, dash.Data = .object fields → fields.lookup "revision" = some v →
        (∀ n, v ≠ .number n) → row.Revision = 1) ∧
      (∀ fields r, dash.Data = .object fields →
        fields.lookup "revision" = some (.number r) → row.Revision = r) := by
  rcases success_rows pm w orgId pluginId plugin stored rows hp hs hr with ⟨ds, hl, rfl⟩
  rcases reconciled_getElem?_include pm w plugin stored ds i incl dash hl hi hd
    with ⟨hrow, _⟩
  have hk := includeRow_kept w plugin stored incl dash
  refine ⟨_, hrow, hk.2.2.2.2.2.2.2, hk.2.2.1, ?_, ?_, ?_, ?_⟩
  · intro fields hdata hnone
    rw [hk.2.2.2.1, hdata]
    exact revision_of_no_field fields hnone
  · intro hno
    rw [hk.2.2.2.1]
    exact revision_of_non_object dash.Data hno
  · intro fields v hdata hsome hv
    rw [hk.2.2.2.1, hdata]
    exact revision_of_non_number fields v hsome hv
  · intro fields r hdata hsome
    rw [hk.2.2.2.1, hdata]
    exact revision_of_number fields r hsome

/-- C13 at the plugin "acme": the document with revision 3 gives a row of revision 3, and the
document without a revision field gives a row of revision 1. -/
theorem declared_revision_default_witness :
    (∃ row, ([{ PluginId := "acme", Title := "B", Path := "dash1.json", Revision := 3 }] :
        List PluginDashboardInfoDTO)[0]? = some row ∧ row.Revision = 3) ∧
    (∃ row, ([{ PluginId := "acme", Title := "A", Path := "dash1.json", Revision := 1 }] :
        List PluginDashboardInfoDTO)[0]? = some row ∧ row.Revision = 1) :=
  ⟨(declared_revision_default Example.pm (Example.world (.ok []) "old3") 1 "acme"
      Example.acme [] [{ PluginId := "acme", Title := "B", Path := "dash1.json", Revision := 3 }]
      0 { Type_ := "dashboard", Path := "dash1.json" } (Example.fromJson Example.docOld3)
      rfl rfl (by decide) rfl rfl).elim
      (fun row h => ⟨row, h.1, h.2.2.2.2.2.2 _ 3 rfl rfl⟩),
    (declared_revision_default Example.pm (Example.world (.ok []) "new") 1 "acme"
      Example.acme [] [{ PluginId := "acme", Title := "A", Path := "dash1.json", Revision := 1 }]
      0 { Type_ := "dashboard", Path := "dash1.json" } (Example.fromJson Example.docNew)
      rfl rfl (by decide) rfl rfl).elim
      (fun row h => ⟨row, h.1, h.2.2.2.1 _ rfl rfl⟩)⟩

/-! ## Matched and removed stored dashboards -/

theorem forall₂_mem_left {α β : Type} {R : α → β → Prop} {l : List α} {ds : List β}
    (h : List.Forall₂ R l ds) (a : α) (ha : a ∈ l) : ∃ b ∈ ds, R a b := by
  rcases List.mem_iff_getElem?.1 ha with ⟨i, hi⟩
  rcases forall₂_getElem? h i a hi with ⟨b, hb, hR⟩
  exact ⟨b, List.mem_iff_getElem?.2 ⟨i, hb⟩, hR⟩

/-- A stored dashboard with the slug of a declared dashboard has no removed row. -/
theorem matched_not_removed (w : World) (plugin : PluginBase) (stored ds : List Dashboard)
    (dash s : Dashboard) (r : PluginDashboardInfoDTO)
    (hdash : dash ∈ ds) (hs : s ∈ stored) (hslug : s.Slug = dash.Slug)
    (hr : r ∈ reconciled w plugin stored ds) (hrem : r.Removed = true) :
    r.DashboardId ≠ s.Id := by
  intro hid
  unfold reconciled at hr
  rcases List.mem_append.1 hr with h0 | h0
  · rw [zipWith_includeRow_not_removed w plugin _ _ ds r h0] at hrem
    cases hrem
  · rcases mem_removed_rows ds _ r h0 with ⟨s2, _, hnot, rfl⟩
    have : idMatched ds stored s2 = true :=
      (idMatched_iff ds _ s2).2 ⟨dash, hdash, s, hs, hslug, hid.symm⟩
    rw [this] at hnot
    cases hnot

/-- C14: every row of a successful call is either the row of a dashboard include, with
`Removed = false`, the id of the plugin and the path of the include, or the row of a stored
dashboard whose slug is the slug of no declared dashboard, with `Removed = true` and
`Imported = false`; the two cases exclude each other, and no row has both `Imported = true`
and `Removed = true`. -/
theorem row_has_one_framing (pm : PluginManager) (w : World) (orgId : Int)
    (pluginId : String) (plugin : PluginBase) (stored : List Dashboard)
    (rows : List PluginDashboardInfoDTO) (r : PluginDashboardInfoDTO)
    (hp : pm.Plugins pluginId = some plugin)
    (hs : w.busDispatch orgId pluginId = .ok stored)
    (hr : (GetPluginDashboards pm w orgId pluginId).1 = (some rows, none))
    (hmem : r ∈ rows) :
    ((r.Removed = false ∧ r.PluginId = plugin.Id ∧
        ∃ incl ∈ dashboardIncludes plugin, r.Path = incl.Path) ∨
      (r.Removed = true ∧ r.Imported = false ∧
        ∃ s ∈ stored, r.Slug = s.Slug ∧ r.DashboardId = s.Id ∧
          ∀ incl ∈ dashboardIncludes plugin, ∀ d, LoadsAs pm w plugin incl d →
            d.Slug ≠ s.Slug)) ∧
    ¬ (r.Imported = true ∧ r.Removed = true) := by
  rcases success_rows pm w orgId pluginId plugin stored rows hp hs hr with ⟨ds, hl, rfl⟩
  unfold reconciled at hmem
  rcases List.mem_append.1 hmem with h0 | h0
  · rcases mem_zipWith_includeRow w plugin stored _ ds r h0 with ⟨incl, d, hincl, _, rfl⟩
    have hk := includeRow_kept w plugin stored incl d
    refine ⟨Or.inl ⟨hk.2.2.2.2.2.2.2, hk.1, incl, hincl, hk.2.2.1⟩, ?_⟩
    rintro ⟨_, h2⟩
    rw [hk.2.2.2.2.2.2.2] at h2
    cases h2
  · rcases mem_removed_rows ds stored r h0 with ⟨s, hsmem, hnot, rfl⟩
    refine ⟨Or.inr ⟨rfl, rfl, s, hsmem, rfl, rfl, ?_⟩, ?_⟩
    · intro incl hincl d hd hslug
      rcases forall₂_mem_left hl incl hincl with ⟨b, hb, hR⟩
      have hbd : b = d := LoadsAs_unique pm w plugin incl b d hR hd
      subst hbd
      have : idMatched ds stored s = true :=
        (idMatched_iff ds stored s).2 ⟨b, hb, s, hsmem, hslug.symm, rfl⟩
      rw [this] at hnot
      cases hnot
    · rintro ⟨h1, _⟩
      cases h1

/-- C14 at the plugin "acme" with one declared dashboard of slug "new" and the stored
dashboard (id 7, slug "old"), for the removed row of the result. -/
theorem row_has_one_framing_witness :
    ((({ Slug := "old", DashboardId := 7, Removed := true } :
          PluginDashboardInfoDTO).Removed = false ∧
        ({ Slug := "old", DashboardId := 7, Removed := true } :
          PluginDashboardInfoDTO).PluginId = Example.acme.Id ∧
        ∃ incl ∈ dashboardIncludes Example.acme,
          ({ Slug := "old", DashboardId := 7, Removed := true } :
            PluginDashboardInfoDTO).Path = incl.Path) ∨
      (({ Slug := "old", DashboardId := 7, Removed := true } :
          PluginDashboardInfoDTO).Removed = true ∧
        ({ Slug := "old", DashboardId := 7, Removed := true } :
          PluginDashboardInfoDTO).Imported = false ∧
        ∃ s ∈ [Example.storedBare 7 "old"],
          ({ Slug := "old", DashboardId := 7, Removed := true } :
            PluginDashboardInfoDTO).Slug = s.Slug ∧
          ({ Slug := "old", DashboardId := 7, Removed := true } :
            PluginDashboardInfoDTO).DashboardId = s.Id ∧
          ∀ incl ∈ dashboardIncludes Example.acme, ∀ d,
            LoadsAs Example.pm (Example.world (.ok [Example.storedBare 7 "old"]) "new")
              Example.acme incl d →
            d.Slug ≠ s.Slug)) ∧
    ¬ (({ Slug := "old", DashboardId := 7, Removed := true } :
          PluginDashboardInfoDTO).Imported = true ∧
        ({ Slug := "old", DashboardId := 7, Removed := true } :
          PluginDashboardInfoDTO).Removed = true) :=
  row_has_one_framing Example.pm
    (Example.world (.ok [Example.storedBare 7 "old"]) "new") 1 "acme" Example.acme
    [Example.storedBare 7 "old"]
    [{ PluginId := "acme", Title := "A", Path := "dash1.json", Revision := 1 },
     { Slug := "old", DashboardId := 7, Removed := true }]
    { Slug := "old", DashboardId := 7, Removed := true } rfl rfl (by decide) (by decide)

/-- C17: in a successful call, with `ds` the dashboards the dashboard includes load as, the
rows marked removed are the rows of the stored dashboards, in the order and with the
multiplicity of the store answer, that share their id with no stored dashboard whose slug is
the slug of a declared dashboard; so the removed rows are M minus the number of stored entries
whose id was matched. -/
theorem removed_rows_by_matched_id (pm : PluginManager) (w : World) (orgId : Int)
    (pluginId : String) (plugin : PluginBase) (stored : List Dashboard)
    (rows : List PluginDashboardInfoDTO)
    (hp : pm.Plugins pluginId = some plugin)
    (hs : w.busDispatch orgId pluginId = .ok stored)
    (hr : (GetPluginDashboards pm w orgId pluginId).1 = (some rows, none)) :
    ∃ ds, List.Forall₂ (LoadsAs pm w plugin) (dashboardIncludes plugin) ds ∧
      rows.filter (fun r => r.Removed) =
        (stored.filter (fun s => !idMatched ds stored s)).map
          (fun s => { Slug := s.Slug, DashboardId := s.Id, Removed := true }) ∧
      (∀ s, idMatched ds stored s = true ↔
        ∃ t ∈ stored, t.Id = s.Id ∧ ∃ d ∈ ds, t.Slug = d.Slug) ∧
      (rows.filter (fun r => r.Removed)).length =
        stored.length - (stored.filter (idMatched ds stored)).length := by
  rcases success_rows pm w orgId pluginId plugin stored rows hp hs hr with ⟨ds, hl, rfl⟩
  refine ⟨ds, hl, reconciled_filter_removed w plugin stored ds, ?_, ?_⟩
  · intro s
    rw [idMatched_iff]
    constructor
    · rintro ⟨d, hd, t, ht, h1, h2⟩
      exact ⟨t, ht, h2, d, hd, h1⟩
    · rintro ⟨t, ht, h2, d, hd, h1⟩
      exact ⟨d, hd, t, ht, h1, h2⟩
  · have hsum := filter_not_length (idMatched ds stored) stored
    rw [reconciled_filter_removed, List.length_map]
    omega

/-- C17 at the plugin "acme" declaring a dashboard of slug "old", with the stored dashboards
(7, "old"), (7, "other"), (9, "gone") and (9, "gone") again: id 7 is matched, so the removed
rows are the two rows of id 9. -/
theorem removed_rows_by_matched_id_witness :
    (GetPluginDashboards Example.pm
      (Example.world (.ok Example.storedSharedIds) "old3") 1 "acme").1 =
      (some [{ PluginId := "acme", Title := "B", Path := "dash1.json", Revision := 3,
               Imported := true, DashboardId := 7, ImportedUri := "db/old",
               ImportedUrl := "/d/old", ImportedRevision := 2 },
             { Slug := "gone", DashboardId := 9, Removed := true },
             { Slug := "gone", DashboardId := 9, Removed := true }], none) ∧
    ∃ ds, List.Forall₂ (LoadsAs Example.pm
        (Example.world (.ok Example.storedSharedIds) "old3")
        Example.acme) (dashboardIncludes Example.acme) ds ∧
      ([{ PluginId := "acme", Title := "B", Path := "dash1.json", Revision := 3,
          Imported := true, DashboardId := 7, ImportedUri := "db/old",
          ImportedUrl := "/d/old", ImportedRevision := 2 },
        { Slug := "gone", DashboardId := 9, Removed := true },
        { Slug := "gone", DashboardId := 9, Removed := true }] :
        List PluginDashboardInfoDTO).filter (fun r => r.Removed) =
        (Example.storedSharedIds.filter
            (fun s => !idMatched ds Example.storedSharedIds s)).map
          (fun s => { Slug := s.Slug, DashboardId := s.Id, Removed := true }) ∧
      (∀ s, idMatched ds Example.storedSharedIds s = true ↔
        ∃ t ∈ Example.storedSharedIds,
          t.Id = s.Id ∧ ∃ d ∈ ds, t.Slug = d.Slug) ∧
      (([{ PluginId := "acme", Title := "B", Path := "dash1.json", Revision := 3,
           Imported := true, DashboardId := 7, ImportedUri := "db/old",
           ImportedUrl := "/d/old", ImportedRevision := 2 },
         { Slug := "gone", DashboardId := 9, Removed := true },
         { Slug := "gone", DashboardId := 9, Removed := true }] :
        List PluginDashboardInfoDTO).filter (fun r => r.Removed)).length =
        Example.storedSharedIds.length -
        (Example.storedSharedIds.filter
            (idMatched ds Example.storedSharedIds)).length :=
  ⟨by decide,
    removed_rows_by_matched_id Example.pm
      (Example.world (.ok Example.storedSharedIds) "old3") 1 "acme"
      Example.acme _ _ rfl rfl (by decide)⟩

/-- C18: when two stored dashboards `d1` and, later in the store answer, `d2` have the slug
of a dashboard include (the i-th, loading as `dash`) and no stored dashboard after `d2` has
it, the row of the include reports the `DashboardId`, `ImportedUrl` and `ImportedRevision` of
`d2`, the last one; and every stored dashboard with that slug is matched: no removed row
carries its id. -/
theorem scan_reports_last_match (pm : PluginManager) (w : World) (orgId : Int)
    (pluginId : String) (plugin : PluginBase) (pre mid post : List Dashboard)
    (d1 d2 : Dashboard) (rows : List PluginDashboardInfoDTO) (i : Nat)
    (incl : PluginInclude) (dash : Dashboard)
    (hp : pm.Plugins pluginId = some plugin)
    (hs : w.busDispatch orgId pluginId = .ok (pre ++ d1 :: (mid ++ d2 :: post)))
    (hr : (GetPluginDashboards pm w orgId pluginId).1 = (some rows, none))
    (hi : (dashboardIncludes plugin)[i]? = some incl)
    (hd : LoadsAs pm w plugin incl dash)
    (h1 : d1.Slug = dash.Slug) (h2 : d2.Slug = dash.Slug)
    (hlast : ∀ t ∈ post, t.Slug ≠ dash.Slug) :
    (∃ row, rows[i]? = some row ∧ row.Imported = true ∧ row.DashboardId = d2.Id ∧
      row.ImportedUrl = w.GetUrl d2 ∧
      row.ImportedRevision = (d2.Data.Get "revision").MustInt64 1) ∧
    (∀ r ∈ rows, r.Removed = true → r.DashboardId ≠ d1.Id ∧ r.DashboardId ≠ d2.Id) ∧
    ∀ s ∈ pre ++ d1 :: (mid ++ d2 :: post), s.Slug = dash.Slug →
      ∀ r ∈ rows, r.Removed = true → r.DashboardId ≠ s.Id := by
  rcases success_rows pm w orgId pluginId plugin _ rows hp hs hr with ⟨ds, hl, rfl⟩
  rcases reconciled_getElem?_include pm w plugin (pre ++ d1 :: (mid ++ d2 :: post)) ds i incl
    dash hl hi hd with ⟨hrow, hmem⟩
  have hsplit : pre ++ d1 :: (mid ++ d2 :: post) = (pre ++ d1 :: mid) ++ d2 :: post := by
    simp
  refine ⟨⟨_, hrow, ?_⟩, ?_, ?_⟩
  · rw [includeRow, hsplit,
      findExisting_fst_of_last w dash (pre ++ d1 :: mid) post d2 _ [] h2 hlast]
    exact ⟨rfl, rfl, rfl, rfl⟩
  · intro r hrmem hrem
    exact ⟨matched_not_removed w plugin _ ds dash d1 r hmem (by simp) h1 hrmem hrem,
      matched_not_removed w plugin _ ds dash d2 r hmem (by simp) h2 hrmem hrem⟩
  · intro s hsmem hsslug r hrmem hrem
    exact matched_not_removed w plugin _ ds dash s r hmem hsmem hsslug hrmem hrem

/-- C18 at the plugin "acme" declaring a dashboard of slug "old", with the stored dashboards
(id 7, slug "old", revision 2) and (id 8, slug "old", revision 5): the single row reports
id 8 and imported revision 5, and neither stored dashboard is reported as removed. -/
theorem scan_reports_last_match_witness :
    (GetPluginDashboards Example.pm
      (Example.world (.ok [Example.storedDash 7 "old" 2, Example.storedDash 8 "old" 5])
        "old3") 1 "acme").1 =
      (some [{ PluginId := "acme", Title := "B", Path := "dash1.json", Revision := 3,
               Imported := true, DashboardId := 8, ImportedUri := "db/old",
               ImportedUrl := "/d/old", ImportedRevision := 5 }], none) ∧
    (∃ row, ([{ PluginId := "acme", Title := "B", Path := "dash1.json", Revision := 3,
                Imported := true, DashboardId := 8, ImportedUri := "db/old",
                ImportedUrl := "/d/old", ImportedRevision := 5 }] :
          List PluginDashboardInfoDTO)[0]? = some row ∧
      row.Imported = true ∧ row.DashboardId = 8 ∧ row.ImportedUrl = "/d/old" ∧
      row.ImportedRevision = 5) ∧
    (∀ r ∈ ([{ PluginId := "acme", Title := "B", Path := "dash1.json", Revision := 3,
               Imported := true, DashboardId := 8, ImportedUri := "db/old",
               ImportedUrl := "/d/old", ImportedRevision := 5 }] :
          List PluginDashboardInfoDTO),
      r.Removed = true → r.DashboardId ≠ 7 ∧ r.DashboardId ≠ 8) ∧
    ∀ s ∈ [] ++ Example.storedDash 7 "old" 2 :: ([] ++ Example.storedDash 8 "old" 5 :: []),
      s.Slug = (Example.fromJson Example.docOld3).Slug →
      ∀ r ∈ ([{ PluginId := "acme", Title := "B", Path := "dash1.json", Revision := 3,
                Imported := true, DashboardId := 8, ImportedUri := "db/old",
                ImportedUrl := "/d/old", ImportedRevision := 5 }] :
          List PluginDashboardInfoDTO),
        r.Removed = true → r.DashboardId ≠ s.Id :=
  ⟨by decide,
    scan_reports_last_match Example.pm
      (Example.world (.ok [Example.storedDash 7 "old" 2, Example.storedDash 8 "old" 5])
        "old3") 1 "acme" Example.acme [] [] [] (Example.storedDash 7 "old" 2)
      (Example.storedDash 8 "old" 5) _ 0 { Type_ := "dashboard", Path := "dash1.json" }
      (Example.fromJson Example.docOld3) rfl rfl (by decide) rfl rfl rfl rfl
      (fun t ht => absurd ht (List.not_mem_nil t))⟩

/-- C19, as stated, fails: the plugin "acme" declares a dashboard of slug "old" without a
revision field, and the store returns the dashboards (id 7, slug "old", no revision field) and
(id 8, slug "old", revision 5).  The declared dashboard is matched to the stored dashboard of
id 7, which has no revision field, yet the row has `Revision = 1` and
`ImportedRevision = 5`. -/
theorem imported_revision_counterexample :
    Example.storedBare 7 "old" ∈ [Example.storedBare 7 "old", Example.storedDash 8 "old" 5] ∧
    (Example.storedBare 7 "old").Slug = (Example.fromJson Example.docOldBare).Slug ∧
    (Example.storedBare 7 "old").Data.Get "revision" = .null ∧
    (Example.fromJson Example.docOldBare).Data.Get "revision" = .null ∧
    LoadsAs Example.pm
      (Example.world (.ok [Example.storedBare 7 "old", Example.storedDash 8 "old" 5]) "old")
      Example.acme { Type_ := "dashboard", Path := "dash1.json" }
      (Example.fromJson Example.docOldBare) ∧
    ∃ row, (GetPluginDashboards Example.pm
        (Example.world (.ok [Example.storedBare 7 "old", Example.storedDash 8 "old" 5])
          "old") 1 "acme").1 = (some [row], none) ∧
      row.Imported = true ∧ row.Revision = 1 ∧ row.ImportedRevision = 5 ∧
      row.ImportedRevision ≠ 1 ∧ row.Revision ≠ row.ImportedRevision :=
  ⟨List.mem_cons_self _ _, rfl, rfl, rfl, rfl,
    { PluginId := "acme", Title := "C", Path := "dash1.json", Revision := 1,
      Imported := true, DashboardId := 8, ImportedUri := "db/old", ImportedUrl := "/d/old",
      ImportedRevision := 5 },
    by decide, by decide, by decide, by decide, by decide, by decide⟩

/-- C19, amended: for a dashboard include (the i-th, loading as `dash`) whose slug is the slug
of a stored dashboard, let `d` be the last stored dashboard with that slug in the order of the
store answer.  `ImportedRevision` is read from the data of `d` with the default of the declared
revision: it is 1 when the data of `d` has no revision field or one that is not a number.
Hence when neither the declared document nor the data of `d` has a revision field, the row has
`Revision = ImportedRevision = 1`. -/
theorem imported_revision_default (pm : PluginManager) (w : World) (orgId : Int)
    (pluginId : String) (plugin : PluginBase) (pre post : List Dashboard) (d : Dashboard)
    (rows : List PluginDashboardInfoDTO) (i : Nat) (incl : PluginInclude) (dash : Dashboard)
    (hp : pm.Plugins pluginId = some plugin)
    (hs : w.busDispatch orgId pluginId = .ok (pre ++ d :: post))
    (hr : (GetPluginDashboards pm w orgId pluginId).1 = (some rows, none))
    (hi : (dashboardIncludes plugin)[i]? = some incl)
    (hd : LoadsAs pm w plugin incl dash)
    (hslug : d.Slug = dash.Slug)
    (hlast : ∀ t ∈ post, t.Slug ≠ dash.Slug) :
    ∃ row, rows[i]? = some row ∧ row.Imported = true ∧
      row.ImportedRevision = (d.Data.Get "revision").MustInt64 1 ∧
      row.Revision = (dash.Data.Get "revision").MustInt64 1 ∧
      (∀ fields, d.Data = .object fields → fields.lookup "revision" = none →
        row.ImportedRevision = 1) ∧
      (∀ fields v, d.Data = .object fields → fields.lookup "revision" = some v →
        (∀ n, v ≠ .number n) → row.ImportedRevision = 1) ∧
      (∀ declared fields, dash.Data = .object declared →
        declared.lookup "revision" = none →
        d.Data = .object fields → fields.lookup "revision" = none →
        row.Revision = 1 ∧ row.ImportedRevision = 1) := by
  rcases success_rows pm w orgId pluginId plugin _ rows hp hs hr with ⟨ds, hl, rfl⟩
  rcases reconciled_getElem?_include pm w plugin (pre ++ d :: post) ds i incl dash hl hi hd
    with ⟨hrow, _⟩
  have hk := includeRow_kept w plugin (pre ++ d :: post) incl dash
  have hrev : (includeRow w plugin (pre ++ d :: post) incl dash).ImportedRevision =
      (d.Data.Get "revision").MustInt64 1 := by
    rw [includeRow, findExisting_fst_of_last w dash pre post d _ [] hslug hlast]
  have himp : (includeRow w plugin (pre ++ d :: post) incl dash).Imported = true := by
    rw [includeRow, findExisting_fst_of_last w dash pre post d _ [] hslug hlast]
  refine ⟨_, hrow, himp, hrev, hk.2.2.2.1, ?_, ?_, ?_⟩
  · intro fields hdata hnone
    rw [hrev, hdata]
    exact revision_of_no_field fields hnone
  · intro fields v hdata hsome hv
    rw [hrev, hdata]
    exact revision_of_non_number fields v hsome hv
  · intro declared fields hdecl hdnone hdata hnone
    rw [hrev, hk.2.2.2.1, hdata, hdecl]
    exact ⟨revision_of_no_field declared hdnone, revision_of_no_field fields hnone⟩

/-- The amended C19 at the plugin "acme" declaring a dashboard of slug "old" without a
revision field, with the stored dashboard (id 7, slug "old") without a revision field: the
row has revision 1 and imported revision 1. -/
theorem imported_revision_default_witness :
    (GetPluginDashboards Example.pm
      (Example.world (.ok [Example.storedBare 7 "old"]) "old") 1 "acme").1 =
      (some [{ PluginId := "acme", Title := "C", Path := "dash1.json", Revision := 1,
               Imported := true, DashboardId := 7, ImportedUri := "db/old",
               ImportedUrl := "/d/old", ImportedRevision := 1 }], none) ∧
    ∃ row, ([{ PluginId := "acme", Title := "C", Path := "dash1.json", Revision := 1,
               Imported := true, DashboardId := 7, ImportedUri := "db/old",
               ImportedUrl := "/d/old", ImportedRevision := 1 }] :
          List PluginDashboardInfoDTO)[0]? = some row ∧
      row.Revision = 1 ∧ row.ImportedRevision = 1 :=
  ⟨by decide,
    (imported_revision_default Example.pm
      (Example.world (.ok [Example.storedBare 7 "old"]) "old") 1 "acme" Example.acme
      [] [] (Example.storedBare 7 "old")
      [{ PluginId := "acme", Title := "C", Path := "dash1.json", Revision := 1,
         Imported := true, DashboardId := 7, ImportedUri := "db/old",
         ImportedUrl := "/d/old", ImportedRevision := 1 }]
      0 { Type_ := "dashboard", Path := "dash1.json" } (Example.fromJson Example.docOldBare)
      rfl rfl (by decide) rfl rfl rfl (fun t ht => absurd ht (List.not_mem_nil t))).elim
      (fun row h => ⟨row, h.1, h.2.2.2.2.2.2 _ _ rfl rfl rfl rfl⟩)⟩

/-- C20: every row of a successful call with `Removed = false` has an empty `Slug` and an
empty `Description`, whether or not it is imported; so a row with a slug is a removed row. -/
theorem kept_rows_have_no_slug (pm : PluginManager) (w : World) (orgId : Int)
    (pluginId : String) (plugin : PluginBase) (stored : List Dashboard)
    (rows : List PluginDashboardInfoDTO)
    (hp : pm.Plugins pluginId = some plugin)
    (hs : w.busDispatch orgId pluginId = .ok stored)
    (hr : (GetPluginDashboards pm w orgId pluginId).1 = (some rows, none)) :
    (∀ r ∈ rows, r.Removed = false → r.Slug = "" ∧ r.Description = "") ∧
    ∀ r ∈ rows, r.Slug ≠ "" → r.Removed = true := by
  rcases success_rows pm w orgId pluginId plugin stored rows hp hs hr with ⟨ds, _, rfl⟩
  have key : ∀ r ∈ reconciled w plugin stored ds, r.Removed = false →
      r.Slug = "" ∧ r.Description = "" := by
    intro r hmem hkept
    unfold reconciled at hmem
    rcases List.mem_append.1 hmem with h0 | h0
    · rcases mem_zipWith_includeRow w plugin stored _ ds r h0 with ⟨incl, d, _, _, rfl⟩
      have hk := includeRow_kept w plugin stored incl d
      exact ⟨hk.2.2.2.2.2.1, hk.2.2.2.2.2.2.1⟩
    · rcases mem_removed_rows ds stored r h0 with ⟨s, _, _, rfl⟩
      cases hkept
  refine ⟨key, ?_⟩
  intro r hmem hslug
  cases hrem : r.Removed with
  | true => rfl
  | false => exact absurd (key r hmem hrem).1 hslug

/-- C20 at the plugin "acme" declaring a dashboard of slug "old", with the stored dashboards
(id 7, slug "old") and (id 9, slug "gone"): the imported row has no slug, the removed row has
the slug "gone". -/
theorem kept_rows_have_no_slug_witness :
    (∀ r ∈ ([{ PluginId := "acme", Title := "B", Path := "dash1.json", Revision := 3,
               Imported := true, DashboardId := 7, ImportedUri := "db/old",
               ImportedUrl := "/d/old", ImportedRevision := 2 },
             { Slug := "gone", DashboardId := 9, Removed := true }] :
          List PluginDashboardInfoDTO),
      r.Removed = false → r.Slug = "" ∧ r.Description = "") ∧
    ∀ r ∈ ([{ PluginId := "acme", Title := "B", Path := "dash1.json", Revision := 3,
              Imported := true, DashboardId := 7, ImportedUri := "db/old",
              ImportedUrl := "/d/old", ImportedRevision := 2 },
            { Slug := "gone", DashboardId := 9, Removed := true }] :
          List PluginDashboardInfoDTO),
      r.Slug ≠ "" → r.Removed = true :=
  kept_rows_have_no_slug Example.pm
    (Example.world (.ok [Example.storedDash 7 "old" 2, Example.storedDash 9 "gone" 1])
      "old3") 1 "acme" Example.acme
    [Example.storedDash 7 "old" 2, Example.storedDash 9 "gone" 1] _ rfl rfl (by decide)

end Grafana
